import Mathlib

set_option maxRecDepth 10000

/-!
Verification development for the AQUATOX Stage-1 lake-ecosystem core
(`aquatox/core.py`, `aquatox/state.py`, `aquatox/foodweb.py`).

The Python core is shallowly embedded in Lean:
* floats are modelled as exact rationals (`ℚ`);
* `datetime` values are modelled by a `Date` record (proleptic Gregorian
  calendar, seconds within the day as a rational); comparison and
  subtraction of datetimes go through `toTicks`, the count of seconds
  since the calendar epoch, which is the chronological order used by
  Python on the (always valid) `datetime` objects;
* Python dictionaries are modelled as association lists in insertion
  order, with first-match lookup (keys of an actual `dict` are unique);
* `math.cos` / `math.sin` / `math.pi` are abstracted into a `FloatMath`
  record of opaque-to-the-model rational functions, since the claims
  under study never depend on specific trigonometric values;
* raising an exception is modelled by `Except.error`.
-/

namespace Aquatox

/-- Gregorian leap-year indicator (0 or 1), as used by `datetime`. -/
def leapBit (y : Nat) : Nat :=
  if y % 4 = 0 ∧ (¬ y % 100 = 0 ∨ y % 400 = 0) then 1 else 0

/-- Number of days in a month of the proleptic Gregorian calendar. -/
def daysInMonth (y m : Nat) : Nat :=
  match m with
  | 1 => 31 | 2 => 28 + leapBit y | 3 => 31 | 4 => 30 | 5 => 31 | 6 => 30
  | 7 => 31 | 8 => 31 | 9 => 30 | 10 => 31 | 11 => 30 | 12 => 31
  | _ => 0

/-- Days of the year strictly before month `m` starts. -/
def cumDays (y m : Nat) : Nat :=
  (match m with
   | 1 => 0 | 2 => 31 | 3 => 59 | 4 => 90 | 5 => 120 | 6 => 151
   | 7 => 181 | 8 => 212 | 9 => 243 | 10 => 273 | 11 => 304 | 12 => 334
   | _ => 0)
  + (if 3 ≤ m ∧ m ≤ 12 then leapBit y else 0)

/-- Day of year (`timetuple().tm_yday` in Python): 1 for January 1st. -/
def dayOfYear (y m d : Nat) : Nat := cumDays y m + d

/-- Days contributed by all years strictly before year `y`
(the part of `datetime.toordinal` that does not depend on month/day). -/
def ordBase (y : Nat) : Nat :=
  365 * (y - 1) + (y - 1) / 4 + (y - 1) / 400 - (y - 1) / 100

/-- Proleptic Gregorian ordinal (`datetime.toordinal`): 1 for 0001-01-01. -/
def toOrdinal (y m d : Nat) : Nat := ordBase y + dayOfYear y m d

/-- Model of a Python `datetime`: calendar fields plus seconds within the
day (a rational, so fractional seconds are representable). -/
structure Date where
  year : Nat
  month : Nat
  day : Nat
  secs : ℚ
deriving DecidableEq, Repr

/-- Seconds since the calendar epoch; datetime comparison and subtraction
(`total_seconds`) are computed on this timeline. -/
def toTicks (t : Date) : ℚ :=
  (toOrdinal t.year t.month t.day : ℚ) * 86400 + t.secs

/-- `datetime` order: chronological (`a <= b`). -/
def dle (a b : Date) : Prop := toTicks a ≤ toTicks b

/-- `datetime` order: chronological (`a < b`). -/
def dlt (a b : Date) : Prop := toTicks a < toTicks b

instance : DecidableRel dle := fun a b => inferInstanceAs (Decidable (toTicks a ≤ toTicks b))

instance : DecidableRel dlt := fun a b => inferInstanceAs (Decidable (toTicks a < toTicks b))

instance : IsTotal Date dle := ⟨fun a b => le_total (toTicks a) (toTicks b)⟩

instance : IsTrans Date dle := ⟨fun _ _ _ h1 h2 => le_trans h1 h2⟩

/-- A `Date` that an actual Python `datetime` object can hold (the
`datetime` constructor validates all fields; `MINYEAR` is 1). -/
def ValidDate (t : Date) : Prop :=
  1 ≤ t.year ∧ 1 ≤ t.month ∧ t.month ≤ 12 ∧ 1 ≤ t.day ∧
    t.day ≤ daysInMonth t.year t.month ∧ 0 ≤ t.secs ∧ t.secs < 86400

instance (t : Date) : Decidable (ValidDate t) := by
  unfold ValidDate; infer_instance

/-- `t.replace(year=y)`, with `datetime`'s `ValueError` fallback used by
`Environment._add_years`: Feb 29 becomes Feb 28 when `y` is not a leap
year. -/
def replaceYear (t : Date) (y : Nat) : Date :=
  if t.month = 2 ∧ t.day = 29 ∧ leapBit y = 0 then
    { t with year := y, day := 28 }
  else
    { t with year := y }

/-- `Environment._add_years` (source: core.py lines 181-187). -/
def add_years (t : Date) (years : Int) : Date :=
  replaceYear t ((t.year : Int) + years).toNat

/-- `Environment._shift_to_year` (source: core.py lines 177-179). -/
def shift_to_year (t : Date) (year : Nat) : Date :=
  add_years t ((year : Int) - (t.year : Int))

/-- Python's builtin `abs` on floats (agrees with `|·|` on ℚ). -/
def pyabs (x : ℚ) : ℚ := if x < 0 then -x else x

/-- Python's builtin `max` on two floats (agrees with `max` on ℚ). -/
def pymax (a b : ℚ) : ℚ := if a < b then b else a

/-- Python's builtin `min` on two floats (agrees with `min` on ℚ). -/
def pymin (a b : ℚ) : ℚ := if b < a then b else a

/-- A `Dict[datetime, float]` time series, in insertion order. -/
abbrev Series := List (Date × ℚ)

/-- The keys of a series, in insertion order. -/
def keys (s : Series) : List Date := s.map Prod.fst

/-- `series[t]` on a dict: value of the (unique) entry whose key equals
`t`; 0 as a junk default for absent keys. -/
def dictLookup (s : Series) (t : Date) : ℚ :=
  ((s.find? (fun p => p.1 = t)).map Prod.snd).getD 0

/-- `series.get(t)` on a dict. -/
def dictFind (s : Series) (t : Date) : Option ℚ :=
  (s.find? (fun p => p.1 = t)).map Prod.snd

/-- Junk date used only to discharge impossible `getD` defaults. -/
def someDate : Date := ⟨1, 1, 1, 0⟩

/-- `Environment._get_sorted_dates` (source: core.py lines 173-175):
`sorted(series.keys())` in chronological order. -/
def get_sorted_dates (s : Series) : List Date :=
  (keys s).insertionSort dle

/-- `bisect.bisect_left(dates, t)`, modelled as the count of elements
strictly before `t` — the documented insertion point whenever the input
list is sorted, which holds at every reachable call site: the resolver
always bisects `sorted(...)` lists, and the cyclic extension appends a
next-year copy of the first point to a single-year list. -/
def bisect_left (dates : List Date) (t : Date) : Nat :=
  dates.countP (fun d => decide (dlt d t))

/-- `Environment._interpolate_linear` (source: core.py lines 189-204). -/
def interpolate_linear (s : Series) (dates : List Date) (t : Date) : ℚ :=
  let idx := bisect_left dates t
  if idx = 0 then dictLookup s (dates.getD 0 someDate)
  else if dates.length ≤ idx then dictLookup s (dates.getD (dates.length - 1) someDate)
  else
    let left := dates.getD (idx - 1) someDate
    let right := dates.getD idx someDate
    let left_val := dictLookup s left
    let right_val := dictLookup s right
    let span_seconds := toTicks right - toTicks left
    if span_seconds ≤ 0 then left_val
    else left_val + (right_val - left_val) * ((toTicks t - toTicks left) / span_seconds)

/-- `Environment._interpolate_cyclic` (source: core.py lines 206-231). -/
def interpolate_cyclic (s : Series) (dates0 : List Date) (t : Date) : ℚ :=
  let dates := dates0.insertionSort dle
  let first := dates.getD 0 someDate
  if (keys s).contains t then dictLookup s t
  else
    let t_adj := if dlt t first then add_years t 1 else t
    let first_plus := add_years first 1
    let extended_dates := dates ++ [first_plus]
    let idx := bisect_left extended_dates t_adj
    if idx = 0 then dictLookup s first
    else if extended_dates.length ≤ idx then dictLookup s first
    else
      let left := extended_dates.getD (idx - 1) someDate
      let right := extended_dates.getD idx someDate
      let left_val := if (keys s).contains left then dictLookup s left else dictLookup s first
      let right_val := if (keys s).contains right then dictLookup s right else dictLookup s first
      let span_seconds := toTicks right - toTicks left
      if span_seconds ≤ 0 then left_val
      else left_val + (right_val - left_val) * ((toTicks t_adj - toTicks left) / span_seconds)

/-- `Environment._get_series_value` (source: core.py lines 142-160). -/
def get_series_value (s : Series) (t : Date) : ℚ :=
  if s.isEmpty then 0
  else if (keys s).contains t then dictLookup s t
  else
    let dates := get_sorted_dates s
    if dates.length = 1 then dictLookup s (dates.getD 0 someDate)
    else
      let start := dates.getD 0 someDate
      let stop := dates.getD (dates.length - 1) someDate
      if dle start t ∧ dle t stop then interpolate_linear s dates t
      else
        let target_year := if dlt t start then start.year else stop.year
        let t_adj := shift_to_year t target_year
        let cycle_dates0 := dates.filter (fun d => d.year = target_year)
        let cycle_dates := if cycle_dates0.isEmpty then dates else cycle_dates0
        if cycle_dates.length = 1 then dictLookup s (cycle_dates.getD 0 someDate)
        else interpolate_cyclic s cycle_dates t_adj

/-- `Environment._get_series_value_linear` (source: core.py lines 162-171). -/
def get_series_value_linear (s : Series) (t : Date) : Option ℚ :=
  if s.isEmpty then none
  else
    let dates := get_sorted_dates s
    if dlt t (dates.getD 0 someDate) ∨ dlt (dates.getD (dates.length - 1) someDate) t then none
    else if (keys s).contains t then some (dictLookup s t)
    else some (interpolate_linear s dates t)

/-!
## State variables (`aquatox/state.py` and the `ConstantRateVar` test helper)

The Python classes form a closed Stage-1 hierarchy; the subclass-specific
fields are collected in `SVKind`.  `ConstantRateVar` is the helper class
defined in `tests/test_stage1.py`.
-/

/-- Subclass-specific data of a state variable. -/
inductive SVKind where
  | base : SVKind
  | nutrient (form : String) : SVKind
  | detritus (type layer : String) : SVKind
  | biota (biomass max_growth mortality_rate : ℚ) : SVKind
  | plant (biomass max_growth mortality_rate nutrient_uptake_rate : ℚ) : SVKind
  | animal (biomass max_growth mortality_rate : ℚ)
      (feeding_prefs : List (String × ℚ)) (consumption_rate : ℚ) : SVKind
  | constRate (c : ℚ) : SVKind
deriving DecidableEq, Repr

/-- A state variable: shared fields plus subclass data. -/
structure SV where
  name : String
  value : ℚ
  units : String
  kind : SVKind
deriving DecidableEq, Repr

/-- The `biomass` attribute of Biota/Plant/Animal (0 for non-biota,
which have no such attribute). -/
def SV.biomassAttr (sv : SV) : ℚ :=
  match sv.kind with
  | .biota b _ _ => b
  | .plant b _ _ _ => b
  | .animal b _ _ _ _ => b
  | _ => 0

/-- `getattr(sv, "consumption_rate", 0.0)`. -/
def SV.consumptionRate (sv : SV) : ℚ :=
  match sv.kind with
  | .animal _ _ _ _ c => c
  | _ => 0

/-- `getattr(sv, "feeding_prefs", {}) or {}`. -/
def SV.feedingPrefs (sv : SV) : List (String × ℚ) :=
  match sv.kind with
  | .animal _ _ _ fp _ => fp
  | _ => []

/-- The Biota constructor: the dataclass takes an explicit `value`
argument, then `__post_init__` overwrites it with `biomass`
(source: state.py lines 84-87). -/
def mkBiota (name : String) (_value : ℚ) (units : String)
    (biomass max_growth mortality_rate : ℚ) : SV :=
  { name := name, value := biomass, units := units
    kind := .biota biomass max_growth mortality_rate }

/-- The Plant constructor (same `__post_init__` as Biota). -/
def mkPlant (name : String) (_value : ℚ) (units : String)
    (biomass max_growth mortality_rate nutrient_uptake_rate : ℚ) : SV :=
  { name := name, value := biomass, units := units
    kind := .plant biomass max_growth mortality_rate nutrient_uptake_rate }

/-- The Animal constructor (same `__post_init__` as Biota). -/
def mkAnimal (name : String) (_value : ℚ) (units : String)
    (biomass max_growth mortality_rate : ℚ)
    (feeding_prefs : List (String × ℚ)) (consumption_rate : ℚ) : SV :=
  { name := name, value := biomass, units := units
    kind := .animal biomass max_growth mortality_rate feeding_prefs consumption_rate }

/-!
## Food web (`aquatox/foodweb.py`)
-/

/-- `FoodWebInteraction` (source: foodweb.py lines 12-19). -/
structure FoodWebInteraction where
  predator : String
  prey : String
  observations : Int
  params : List (Option ℚ)
  diet_percent : Option ℚ
  habitat_code : Option Int
deriving DecidableEq, Repr

/-- `FoodWeb` configuration fields (the two derived predator indexes are
recomputed by `predatorIndex` instead of being stored). -/
structure FoodWeb where
  interactions : List FoodWebInteraction
  default_assimilation : ℚ := 7/10
  preference_source : String := "diet_percent"
deriving DecidableEq, Repr

/-- `_normalize_name` (source: foodweb.py lines 220-225): lowercase,
drop parentheses, collapse every run of non-alphanumeric characters to a
single space, trim. -/
def normalize_name (text : String) : String :=
  let lowered := (text.toLower.toList.filter (fun c => c ≠ '(' ∧ c ≠ ')'))
  let words := (lowered.map
    (fun c => if ('a' ≤ c ∧ c ≤ 'z') ∨ ('0' ≤ c ∧ c ≤ '9') then c else ' '))
  " ".intercalate (((String.mk words).split (fun c => c = ' ')).filter (fun w => w ≠ ""))

/-- Generic dict write `d[k] = v`: replace in place if the key exists,
else append (Python dict insertion-order semantics). -/
def dictSet (d : List (String × ℚ)) (k : String) (v : ℚ) : List (String × ℚ) :=
  match d with
  | [] => [(k, v)]
  | p :: rest => if p.1 = k then (k, v) :: rest else p :: dictSet rest k v

/-- Generic dict read `d.get(k, dflt)`. -/
def dictGet (d : List (String × ℚ)) (k : String) (dflt : ℚ) : ℚ :=
  ((d.find? (fun p => p.1 = k)).map Prod.snd).getD dflt

/-- `FoodWeb.__post_init__`'s `_predator_index` (source: foodweb.py
lines 30-34): interactions grouped by verbatim predator name, keys in
first-occurrence order, each group in list order. -/
def predatorIndex (interactions : List FoodWebInteraction) :
    List (String × List FoodWebInteraction) :=
  interactions.foldl
    (fun idx i =>
      if (idx.map Prod.fst).contains i.predator then
        idx.map (fun p => if p.1 = i.predator then (p.1, p.2 ++ [i]) else p)
      else idx ++ [(i.predator, [i])])
    []

/-- `{sv.name: sv for sv in state_vars}`: a dict comprehension keeps the
last binding of a repeated key. -/
def byNameLookup (svs : List SV) (n : String) : Option SV :=
  svs.reverse.find? (fun sv => sv.name = n)

/-- `{_normalize_name(sv.name): sv for sv in state_vars}`. -/
def byNormLookup (svs : List SV) (n : String) : Option SV :=
  svs.reverse.find? (fun sv => normalize_name sv.name = n)

/-- `_build_weights` (source: foodweb.py lines 177-197). -/
def build_weights (interactions : List FoodWebInteraction)
    (preferences : List (String × ℚ)) (preference_source : String) :
    List (String × ℚ) :=
  if ¬ preferences.isEmpty then preferences
  else
    interactions.foldl
      (fun ws i =>
        let weight : Option ℚ :=
          if preference_source = "diet_percent" then i.diet_percent
          else if preference_source = "observations" then some (i.observations : ℚ)
          else match i.diet_percent with
               | some w => some w
               | none => some (i.observations : ℚ)
        match weight with
        | none => ws
        | some w => dictSet ws i.prey w)
      []

/-- The weighted-prey gathering loop of `compute_rates` (source:
foodweb.py lines 95-108): returns the availability-weighted prey list
and the total weight. -/
def gatherWeightedPrey (svs : List SV) (weights : List (String × ℚ)) :
    List (SV × ℚ) × ℚ :=
  weights.foldl
    (fun (acc : List (SV × ℚ) × ℚ) (pw : String × ℚ) =>
      let prey? := match byNameLookup svs pw.1 with
                   | some p => some p
                   | none => byNormLookup svs (normalize_name pw.1)
      match prey? with
      | none => acc
      | some prey =>
        if pw.2 ≤ 0 then acc
        else
          let availability := pymax prey.value 0
          if availability ≤ 0 then acc
          else (acc.1 ++ [(prey, pw.2 * availability)], acc.2 + pw.2 * availability))
    ([], 0)

/-- The clamped per-prey consumption of `compute_rates` (source:
foodweb.py lines 119-121): `min(ingestion·fraction, max(prey.value, 0))`. -/
def consumedAmount (ingestion total : ℚ) (p : SV × ℚ) : ℚ :=
  pymin (ingestion * (p.2 / total)) (pymax p.1.value 0)

/-- One iteration of the consumption loop of `compute_rates` (source:
foodweb.py lines 118-125): accumulate `rates[prey] -= consumed` and
`predator_gain += consumed`, skipping non-positive consumption. -/
def preyStep (ingestion total : ℚ) (acc : List (String × ℚ) × ℚ) (p : SV × ℚ) :
    List (String × ℚ) × ℚ :=
  let consumed := consumedAmount ingestion total p
  if consumed ≤ 0 then acc
  else (dictSet acc.1 p.1.name (dictGet acc.1 p.1.name 0 - consumed), acc.2 + consumed)

/-- The per-predator body of `compute_rates` (source: foodweb.py
lines 76-128). -/
def processPredator (fw : FoodWeb) (svs : List SV) (rates : List (String × ℚ))
    (entry : String × List FoodWebInteraction) : List (String × ℚ) :=
  let predator? := match byNameLookup svs entry.1 with
                   | some p => some p
                   | none => byNormLookup svs (normalize_name entry.1)
  match predator? with
  | none => rates
  | some predator =>
    if predator.consumptionRate ≤ 0 then rates
    else
      let weights := build_weights entry.2 predator.feedingPrefs fw.preference_source
      if weights.isEmpty then rates
      else
        let wp := gatherWeightedPrey svs weights
        if wp.2 ≤ 0 then rates
        else
          let ingestion := predator.consumptionRate * pymax predator.value 0
          if ingestion ≤ 0 then rates
          else
            -- `getattr(predator, "assimilation_eff", self.default_assimilation)`:
            -- no state-variable class defines `assimilation_eff`, so the
            -- default always applies.
            let assimilation_eff := fw.default_assimilation
            let folded := wp.1.foldl (preyStep ingestion wp.2) (rates, 0)
            if 0 < folded.2 then
              dictSet folded.1 predator.name
                (dictGet folded.1 predator.name 0 + folded.2 * assimilation_eff)
            else folded.1

/-- `FoodWeb.compute_rates` (source: foodweb.py lines 64-130).  The
`t`, `dt`, `env` parameters are deleted unused by the Python code and
are omitted here. -/
def compute_rates (fw : FoodWeb) (svs : List SV) : List (String × ℚ) :=
  (predatorIndex fw.interactions).foldl (processPredator fw svs) []

/-!
## Environment and forcing (`aquatox/core.py`)
-/

/-- Abstraction of the `math` module pieces used by the core
(`math.cos`, `math.sin`, `math.pi`): arbitrary rational stand-ins, since
no claim depends on specific trigonometric values. -/
structure FloatMath where
  cos : ℚ → ℚ
  sin : ℚ → ℚ
  pi : ℚ

/-- `Environment` (source: core.py lines 31-57), restricted to the fields
the core reads (the pH/TSS families do not exist on the core class). -/
structure Env where
  volume : ℚ
  area : ℚ
  depth_mean : ℚ
  depth_max : ℚ
  inflow_series : Series
  outflow_series : Series
  temp_epi_series : Series := []
  temp_hypo_series : Series := []
  temp_epi_constant : Option ℚ := none
  temp_hypo_constant : Option ℚ := none
  temp_epi_mean : Option ℚ := none
  temp_epi_range : Option ℚ := none
  temp_hypo_mean : Option ℚ := none
  temp_hypo_range : Option ℚ := none
  temp_forcing_mode : String := "series"
  wind_series : Series := []
  wind_constant : Option ℚ := none
  wind_mean : Option ℚ := none
  wind_forcing_mode : String := "constant"
  light_series : Series := []
  light_constant : Option ℚ := none
  light_mean : Option ℚ := none
  light_range : Option ℚ := none
  light_forcing_mode : String := "constant"
  food_web : Option FoodWeb := none
deriving DecidableEq

/-- `Environment.get_inflow` (source: core.py lines 59-60). -/
def get_inflow (env : Env) (t : Date) : ℚ := get_series_value env.inflow_series t

/-- `Environment.get_outflow` (source: core.py lines 62-63). -/
def get_outflow (env : Env) (t : Date) : ℚ := get_series_value env.outflow_series t

/-- `Environment._seasonal_value` (source: core.py lines 233-241). -/
def seasonal_value (fm : FloatMath) (mean range : Option ℚ) (t : Date) : Option ℚ :=
  match mean, range with
  | some m, some r =>
    let amplitude := r / 2
    let day_of_year : ℚ := (dayOfYear t.year t.month t.day : ℚ)
    let angle := 2 * fm.pi * (day_of_year - 200) / 365
    some (m + amplitude * fm.cos angle)
  | _, _ => none

/-- The mode-dispatch part of `Environment.get_temperature_pair`
(source: core.py lines 72-98): `none` models the early
`return None, None, False` exits, `some (epi?, hypo?)` the pair of local
values that reaches the merge step at line 100. -/
def tempDispatch (fm : FloatMath) (env : Env) (t : Date) :
    Option (Option ℚ × Option ℚ) :=
  if env.temp_forcing_mode = "series" then
    if env.temp_epi_series.isEmpty then none
    else
      let epi? := dictFind env.temp_epi_series t
      let hypo? := if ¬ env.temp_hypo_series.isEmpty
                   then dictFind env.temp_hypo_series t else none
      if epi? = none then none
      else if ¬ env.temp_hypo_series.isEmpty ∧ hypo? = none then none
      else some (epi?, hypo?)
  else if env.temp_forcing_mode = "series_interpolate" then
    if env.temp_epi_series.isEmpty then none
    else
      let epi? := get_series_value_linear env.temp_epi_series t
      if ¬ env.temp_hypo_series.isEmpty then
        let hypo? := get_series_value_linear env.temp_hypo_series t
        if hypo? = none then none
        else if epi? = none then none
        else some (epi?, hypo?)
      else if epi? = none then none
      else some (epi?, none)
  else if env.temp_forcing_mode = "mean_range" then
    some (seasonal_value fm env.temp_epi_mean env.temp_epi_range t,
          seasonal_value fm env.temp_hypo_mean env.temp_hypo_range t)
  else
    some (env.temp_epi_constant, env.temp_hypo_constant)

/-- The merge step of `Environment.get_temperature_pair` (source:
core.py lines 100-110) once both sides are known:
stratified iff `|epi - hypo| > 3.0`, collapsing hypo to epi otherwise. -/
def mergeStrat (epi hypo : ℚ) : Option ℚ × Option ℚ × Bool :=
  if 3 < pyabs (epi - hypo) then (some epi, some hypo, true)
  else (some epi, some epi, false)

/-- `Environment.get_temperature_pair` (source: core.py lines 71-110). -/
def get_temperature_pair (fm : FloatMath) (env : Env) (t : Date) :
    Option ℚ × Option ℚ × Bool :=
  match tempDispatch fm env t with
  | none => (none, none, false)
  | some (epi?, hypo?) =>
    match epi?, hypo? with
    | none, none => (none, none, false)
    | some epi, none => mergeStrat epi epi
    | none, some hypo => mergeStrat hypo hypo
    | some epi, some hypo => mergeStrat epi hypo

/-- `DEFAULT_WIND_TERMS` (source: core.py lines 13-26), in source order. -/
def DEFAULT_WIND_TERMS : List (Nat × ℚ × ℚ) :=
  [(1, 83408/100000, 87256/100000),
   (2, 4245/10000, -2871/10000),
   (4, -2158/10000, -6634/10000),
   (8, -264/10000, -2766/10000),
   (16, 236/10000, -3492/10000),
   (32, -442/1000, 89/100),
   (64, -14385/10000, 634/1000),
   (128, 935/10000, -106/100),
   (200, -564/1000, -291/1000),
   (300, -6484/10000, 6162/10000),
   (6, 1083/10000, 4047/10000),
   (3, 268/10000, -1209/10000)]

/-- The harmonic table exactly as printed in the specification (section
4.2), rows in the spec's frequency-sorted order. -/
def specWindTable : List (Nat × ℚ × ℚ) :=
  [(1, 83408/100000, 87256/100000),
   (2, 4245/10000, -2871/10000),
   (3, 268/10000, -1209/10000),
   (4, -2158/10000, -6634/10000),
   (6, 1083/10000, 4047/10000),
   (8, -264/10000, -2766/10000),
   (16, 236/10000, -3492/10000),
   (32, -442/1000, 89/100),
   (64, -14385/10000, 634/1000),
   (128, 935/10000, -106/100),
   (200, -564/1000, -291/1000),
   (300, -6484/10000, 6162/10000)]

/-- `Environment._default_wind_value` (source: core.py lines 130-140). -/
def default_wind_value (fm : FloatMath) (env : Env) (t : Date) : Option ℚ :=
  match env.wind_mean with
  | none => none
  | some m =>
    let mean_value := if 0 < m then m else 3
    let julian_day : ℚ := (dayOfYear t.year t.month t.day : ℚ)
    let base_angle := 2 * fm.pi * julian_day / 365
    let value := DEFAULT_WIND_TERMS.foldl
      (fun acc term =>
        acc + term.2.1 * fm.cos (base_angle * term.1) + term.2.2 * fm.sin (base_angle * term.1))
      mean_value
    some (pymax value 0)

/-- `Environment.get_wind` (source: core.py lines 112-119). -/
def get_wind (fm : FloatMath) (env : Env) (t : Date) : Option ℚ :=
  if env.wind_forcing_mode = "default_series" then default_wind_value fm env t
  else if env.wind_forcing_mode = "time_varying" then
    if env.wind_series.isEmpty then none
    else some (get_series_value env.wind_series t)
  else env.wind_constant

/-- `Environment.get_light` (source: core.py lines 121-128). -/
def get_light (fm : FloatMath) (env : Env) (t : Date) : Option ℚ :=
  if env.light_forcing_mode = "time_varying" then
    if env.light_series.isEmpty then none
    else some (get_series_value env.light_series t)
  else if env.light_forcing_mode = "mean_range" then
    seasonal_value fm env.light_mean env.light_range t
  else env.light_constant

/-!
## State-variable rates and the integrator
-/

/-- The polymorphic `rate` method (source: state.py lines 25-120 and the
`ConstantRateVar` helper of tests/test_stage1.py).  Every Stage-1
implementation ignores `t`, `dt`, `env` and the peer list, so every rate
is a function of the pre-step state only. -/
def SV.rate (sv : SV) (_t : Date) (_dt : ℚ) (_env : Env) (_svs : List SV) : ℚ :=
  match sv.kind with
  | .base => 0
  | .nutrient _ => 0
  | .detritus _ _ => 0
  | .biota _ g m => g * sv.value - m * sv.value
  | .plant _ g m _ => g * sv.value - m * sv.value
  | .animal _ g m _ _ => g * sv.value - m * sv.value
  | .constRate c => c

/-- The food-web contribution used by the integrator: `{}` when no food
web is configured, else `compute_rates` (source: core.py lines 267-269). -/
def foodWebRates (env : Env) (svs : List SV) : List (String × ℚ) :=
  match env.food_web with
  | none => []
  | some fw => compute_rates fw svs

/-- `ODESolver.integrate` (source: core.py lines 260-279): gather every
rate from the pre-step state, add the food-web contribution by name
(0.0 if absent), then apply the explicit Euler update.  `method` is the
solver's configured method string. -/
def integrate (method : String) (svs : List SV) (env : Env) (t : Date) (dt_days : ℚ) :
    Except String (List SV) :=
  if ¬ method = "Euler" then .error "Only Euler is implemented in Stage-1."
  else
    let food_web_rates := foodWebRates env svs
    let rates := svs.map (fun sv => sv.rate t dt_days env svs + dictGet food_web_rates sv.name 0)
    .ok ((svs.zip rates).map (fun p => { p.1 with value := p.1.value + dt_days * p.2 }))

/-!
## Simulation loop (`Simulation.run`, source: core.py lines 284-366)
-/

/-- Encode an `Except` as a pair of options, to derive decidable
equality for concrete evaluation. -/
def exceptRepr {ε α : Type} : Except ε α → Option ε × Option α
  | .error e => (some e, none)
  | .ok a => (none, some a)

/-- Decidable equality of `Except` results, via the pair encoding. -/
instance {ε α : Type} [DecidableEq ε] [DecidableEq α] : DecidableEq (Except ε α) := fun x y =>
  decidable_of_iff (exceptRepr x = exceptRepr y)
    (by cases x <;> cases y <;> simp [exceptRepr])

/-- Snapshot values: Python stores floats for state variables and a bool
for `Temperature_Stratified` in the same dict. -/
inductive SnapVal where
  | num (q : ℚ) : SnapVal
  | boolean (b : Bool) : SnapVal
deriving DecidableEq, Repr

/-- Dict write for snapshot dictionaries. -/
def dictSetV (d : List (String × SnapVal)) (k : String) (v : SnapVal) :
    List (String × SnapVal) :=
  match d with
  | [] => [(k, v)]
  | p :: rest => if p.1 = k then (k, v) :: rest else p :: dictSetV rest k v

/-- The `Simulation` object: environment, state variables, solver method
and the append-only output log `_outputs`. -/
structure Sim where
  env : Env
  state_vars : List SV
  solver_method : String := "Euler"
  outputs : List (Date × List (String × SnapVal)) := []
deriving DecidableEq

/-- Inverse of `toOrdinal` (standard civil-from-days computation),
needed to advance a datetime by a timedelta. -/
def fromOrdinal (n : Nat) : Nat × Nat × Nat :=
  let s := n - 1 + 306
  let era := s / 146097
  let doe := s % 146097
  let yoe := (doe - doe / 1460 + doe / 36524 - doe / 146096) / 365
  let y := yoe + era * 400
  let doy := doe - (365 * yoe + yoe / 4 - yoe / 100)
  let mp := (5 * doy + 2) / 153
  let d := doy - (153 * mp + 2) / 5 + 1
  let m := if mp < 10 then mp + 3 else mp - 9
  (if m ≤ 2 then y + 1 else y, m, d)

/-- `t + timedelta(days=dt_days)`. -/
def addDelta (t : Date) (dt_days : ℚ) : Date :=
  let ticks := toTicks t + dt_days * 86400
  let ord := (⌊ticks / 86400⌋).toNat
  let ymd := fromOrdinal ord
  ⟨ymd.1, ymd.2.1, ymd.2.2, ticks - (ord : ℚ) * 86400⟩

/-- `min(series.keys())`: Python's `min` keeps the first minimum under
`<`. -/
def minKey (s : Series) (dflt : Date) : Date :=
  match keys s with
  | [] => dflt
  | k :: ks => ks.foldl (fun cur d => if dlt d cur then d else cur) k

/-- `sv.value = v` on the first state variable whose lowercased name
matches `target` (the sentinel-update loops of `Simulation.run`,
source: core.py lines 319-344). -/
def setFirstByName (svs : List SV) (target : String) (v : ℚ) : List SV :=
  match svs with
  | [] => []
  | sv :: rest =>
    if sv.name.toLower = target then { sv with value := v } :: rest
    else sv :: setFirstByName rest target v

/-- Whether the temperature-forcing block of the tick runs (source:
core.py line 312). -/
def tempActive (env : Env) : Bool :=
  ["series", "series_interpolate", "mean_range", "constant"].contains env.temp_forcing_mode

/-- Whether the wind-forcing block of the tick runs (source: core.py
line 323). -/
def windActive (env : Env) : Bool :=
  ["default_series", "time_varying", "constant"].contains env.wind_forcing_mode

/-- Whether the light-forcing block of the tick runs (source: core.py
line 334). -/
def lightActive (env : Env) : Bool :=
  ["constant", "mean_range", "time_varying"].contains env.light_forcing_mode

/-- Error message raised for missing temperature coverage (source:
core.py lines 315-318). -/
def tempErrorMsg : String :=
  "Temperature forcing requires full coverage; provide a complete time series or use mean/range or constant."

/-- Error message raised for missing wind coverage (source: core.py
lines 326-329). -/
def windErrorMsg : String :=
  "Wind forcing requires full coverage; provide a time series, default mean value, or constant."

/-- Error message raised for missing light coverage (source: core.py
lines 337-340). -/
def lightErrorMsg : String :=
  "Light forcing requires full coverage; provide a time series, annual mean/range, or constant."

/-- The temperature block of one tick (source: core.py lines 312-322):
resolve the pair, abort if either side is missing, else write the epi
value into the first sentinel variable named "temperature". -/
def tickTemp (fm : FloatMath) (env : Env) (t : Date) (svs : List SV) :
    Except String (List SV × Option (ℚ × ℚ × Bool)) :=
  if tempActive env then
    match get_temperature_pair fm env t with
    | (some epi, some hypo, stratified) =>
      .ok (setFirstByName svs "temperature" epi, some (epi, hypo, stratified))
    | _ => .error tempErrorMsg
  else .ok (svs, none)

/-- The wind block of one tick (source: core.py lines 323-333). -/
def tickWind (fm : FloatMath) (env : Env) (t : Date) (svs : List SV) :
    Except String (List SV) :=
  if windActive env then
    match get_wind fm env t with
    | some w => .ok (setFirstByName svs "wind loading" w)
    | none => .error windErrorMsg
  else .ok svs

/-- The light block of one tick (source: core.py lines 334-344). -/
def tickLight (fm : FloatMath) (env : Env) (t : Date) (svs : List SV) :
    Except String (List SV) :=
  if lightActive env then
    match get_light fm env t with
    | some l => .ok (setFirstByName svs "light" l)
    | none => .error lightErrorMsg
  else .ok svs

/-- The per-tick snapshot (source: core.py lines 354-359). -/
def tickSnapshot (svs : List SV) (tempInfo : Option (ℚ × ℚ × Bool)) :
    List (String × SnapVal) :=
  let base := svs.foldl (fun d sv => dictSetV d sv.name (.num sv.value)) []
  match tempInfo with
  | some info =>
    dictSetV (dictSetV (dictSetV base
      "Temperature_Epilimnion" (.num info.1))
      "Temperature_Hypolimnion" (.num info.2.1))
      "Temperature_Stratified" (.boolean info.2.2)
  | none => base

/-- The `while t < time_end` loop of `Simulation.run` (source: core.py
lines 311-363), with explicit fuel: each tick resolves forcing (aborting
on missing coverage), integrates, updates the water balance, appends the
snapshot and advances `t`.  Exhausted fuel stops the loop early with the
state reached so far (the Python loop simply continues; no claim depends
on behaviour past the supplied fuel). -/
def runLoop (fm : FloatMath) (time_end : Date) (dt_days : ℚ) :
    Nat → Sim → Date → Except String Sim
  | 0, st, _ => .ok st
  | fuel + 1, st, t =>
    if ¬ dlt t time_end then .ok st
    else
      match tickTemp fm st.env t st.state_vars with
      | .error e => .error e
      | .ok (svs1, tempInfo) =>
        match tickWind fm st.env t svs1 with
        | .error e => .error e
        | .ok svs2 =>
          match tickLight fm st.env t svs2 with
          | .error e => .error e
          | .ok svs3 =>
            match integrate st.solver_method svs3 st.env t dt_days with
            | .error e => .error e
            | .ok svs4 =>
              let inflow := get_inflow st.env t
              let outflow := get_outflow st.env t
              let env' := { st.env with volume := st.env.volume + (inflow - outflow) * dt_days }
              let snap := tickSnapshot svs4 tempInfo
              runLoop fm time_end dt_days fuel
                { st with env := env', state_vars := svs4,
                          outputs := st.outputs ++ [(t, snap)] }
                (addDelta t dt_days)

/-- The start time chosen by `Simulation.run` (source: core.py
lines 303-309): earliest inflow key, else earliest outflow key, else
`datetime.utcnow()` — the latter passed in explicitly as `now`. -/
def startTime (env : Env) (now : Date) : Date :=
  if ¬ env.inflow_series.isEmpty then minKey env.inflow_series now
  else if ¬ env.outflow_series.isEmpty then minKey env.outflow_series now
  else now

/-- `Simulation.run` (source: core.py lines 299-363).  `now` stands for
the wall clock (`datetime.utcnow()`), `fuel` bounds the number of ticks
examined. -/
def run (fm : FloatMath) (sim : Sim) (time_end : Date) (dt_days : ℚ)
    (now : Date) (fuel : Nat) : Except String Sim :=
  if sim.state_vars.isEmpty then .ok sim
  else runLoop fm time_end dt_days fuel sim (startTime sim.env now)

/-- `Simulation.output_results` (source: core.py lines 365-366). -/
def output_results (sim : Sim) : List (Date × List (String × SnapVal)) :=
  sim.outputs

/-!
## General lemmas about the embedding
-/

/-- Junk state variable used to discharge impossible `getD` defaults. -/
def svDummy : SV := ⟨"", 0, "", .base⟩

theorem pymax_nonneg_right (x : ℚ) : 0 ≤ pymax x 0 := by
  unfold pymax
  split
  · exact le_refl 0
  · exact le_of_not_lt (by assumption)

theorem pymin_le_right (a b : ℚ) : pymin a b ≤ b := by
  unfold pymin
  split
  · exact le_refl b
  · exact le_of_not_lt (by assumption)

theorem pyabs_eq_abs (x : ℚ) : pyabs x = |x| := by
  unfold pyabs
  rcases lt_trichotomy x 0 with h | h | h
  · rw [if_pos h, abs_of_neg h]
  · simp [h]
  · rw [if_neg (not_lt.mpr h.le), abs_of_pos h]

/-- The Euler integrator always succeeds and updates each variable from
the pre-step state: shared workhorse behind the integrator claims. -/
theorem integrate_euler_ok (svs : List SV) (env : Env) (t : Date) (dt : ℚ) :
    ∃ l, integrate "Euler" svs env t dt = Except.ok l ∧ l.length = svs.length ∧
      ∀ i, i < svs.length →
        (l.getD i svDummy).name = (svs.getD i svDummy).name ∧
        (l.getD i svDummy).units = (svs.getD i svDummy).units ∧
        (l.getD i svDummy).kind = (svs.getD i svDummy).kind ∧
        (l.getD i svDummy).value = (svs.getD i svDummy).value +
          dt * ((svs.getD i svDummy).rate t dt env svs +
                dictGet (foodWebRates env svs) (svs.getD i svDummy).name 0) := by
  refine ⟨_, rfl, ?_, ?_⟩
  · simp [List.length_zip]
  · intro i hi
    have hlen : ((svs.zip (svs.map (fun sv =>
        sv.rate t dt env svs + dictGet (foodWebRates env svs) sv.name 0))).map
          (fun p => { p.1 with value := p.1.value + dt * p.2 })).length = svs.length := by
      simp [List.length_zip]
    have hi' : i < ((svs.zip (svs.map (fun sv =>
        sv.rate t dt env svs + dictGet (foodWebRates env svs) sv.name 0))).map
          (fun p => { p.1 with value := p.1.value + dt * p.2 })).length := by
      rw [hlen]; exact hi
    rw [List.getD_eq_getElem _ _ hi', List.getD_eq_getElem _ _ hi]
    simp [List.getElem_zip, hi]

/-!
## Concrete fixtures used by claim theorems
-/

/-- A minimal environment with no forcing beyond empty flow series. -/
def envBare : Env :=
  { volume := 0, area := 0, depth_mean := 0, depth_max := 0,
    inflow_series := [], outflow_series := [] }

/-- A fixed concrete timestamp (2020-01-01 00:00:00). -/
def jan2020 : Date := ⟨2020, 1, 1, 0⟩

/-!
## C1 — value/biomass aliasing for Biota
-/

/-- C1, counterexample: the claim that `value` still equals `biomass`
after `ODESolver.integrate` is false on the code.  A `Biota` constructed
with biomass 1, max_growth 1, mortality 0 has rate 1; one Euler step with
`dt = 1` moves `value` to 2 while `biomass` stays 1. -/
theorem c1_value_biomass_counterexample :
    integrate "Euler" [mkBiota "algae" 1 "mg/L" 1 1 0] envBare jan2020 1 =
      Except.ok [⟨"algae", 2, "mg/L", .biota 1 1 0⟩] ∧
    (mkBiota "algae" 1 "mg/L" 1 1 0).value = (mkBiota "algae" 1 "mg/L" 1 1 0).biomassAttr ∧
    SV.biomassAttr ⟨"algae", 2, "mg/L", .biota 1 1 0⟩ = 1 ∧
    SV.value ⟨"algae", 2, "mg/L", .biota 1 1 0⟩ = 2 ∧ ¬ ((2 : ℚ) = 1) := by
  refine ⟨?_, ?_, ?_, ?_, ?_⟩ <;> with_unfolding_all decide

/-- C1, amended: `value = biomass` holds at construction for every Biota
variant (Biota, Plant, Animal), but `ODESolver.integrate` mutates only
`value` and leaves `biomass` unchanged, so after a tick
`value = biomass + dt·total_rate`, and the aliasing survives only when
`dt·total_rate = 0`. -/
theorem c1_value_biomass_amended :
    (∀ n v u b g m, (mkBiota n v u b g m).value = (mkBiota n v u b g m).biomassAttr) ∧
    (∀ n v u b g m r, (mkPlant n v u b g m r).value = (mkPlant n v u b g m r).biomassAttr) ∧
    (∀ n v u b g m fp c, (mkAnimal n v u b g m fp c).value = (mkAnimal n v u b g m fp c).biomassAttr) ∧
    (∀ svs env t dt l, integrate "Euler" svs env t dt = Except.ok l →
      ∀ i, i < svs.length →
        (l.getD i svDummy).biomassAttr = (svs.getD i svDummy).biomassAttr ∧
        (l.getD i svDummy).value = (svs.getD i svDummy).value +
          dt * ((svs.getD i svDummy).rate t dt env svs +
                dictGet (foodWebRates env svs) (svs.getD i svDummy).name 0)) := by
  refine ⟨fun n v u b g m => rfl, fun n v u b g m r => rfl, fun n v u b g m fp c => rfl,
    fun svs env t dt l hok i hi => ?_⟩
  obtain ⟨l', hok', hlen, helem⟩ := integrate_euler_ok svs env t dt
  rw [hok'] at hok
  cases hok
  obtain ⟨-, -, hkind, hval⟩ := helem i hi
  refine ⟨?_, hval⟩
  unfold SV.biomassAttr
  rw [hkind]

/-- C1 witness: the amended statement applied to the counterexample
Biota. -/
theorem c1_value_biomass_witness :
    (mkBiota "algae" 1 "mg/L" 1 1 0).value = (mkBiota "algae" 1 "mg/L" 1 1 0).biomassAttr ∧
    ([(⟨"algae", 2, "mg/L", .biota 1 1 0⟩ : SV)].getD 0 svDummy).biomassAttr =
      ([mkBiota "algae" 1 "mg/L" 1 1 0].getD 0 svDummy).biomassAttr := by
  refine ⟨c1_value_biomass_amended.1 "algae" 1 "mg/L" 1 1 0, ?_⟩
  exact (c1_value_biomass_amended.2.2.2 [mkBiota "algae" 1 "mg/L" 1 1 0] envBare jan2020 1
    [⟨"algae", 2, "mg/L", .biota 1 1 0⟩] (by with_unfolding_all decide) 0
    (by with_unfolding_all decide)).1

/-!
## C3 — explicit Euler step from the pre-step state
-/

/-- C3: `ODESolver.integrate` with method "Euler" computes every rate
from the pre-step state only (the rate of slot `i` is a function of the
original `svs`), adds the food-web contribution for the variable's name
(0.0 if absent, via `dictGet ... 0`), and applies
`value += dt·total_rate`; concretely, a constant-rate variable at 0.0
with rate 5.0 and `dt = 1.0` lands exactly on 5.0. -/
theorem c3_euler_prestep :
    (∀ svs (env : Env) (t : Date) (dt : ℚ),
      ∃ l, integrate "Euler" svs env t dt = Except.ok l ∧ l.length = svs.length ∧
        ∀ i, i < svs.length →
          (l.getD i svDummy).value = (svs.getD i svDummy).value +
            dt * ((svs.getD i svDummy).rate t dt env svs +
                  dictGet (foodWebRates env svs) (svs.getD i svDummy).name 0)) ∧
    integrate "Euler" [⟨"X", 0, "arb", .constRate 5⟩] envBare jan2020 1 =
      Except.ok [⟨"X", 5, "arb", .constRate 5⟩] := by
  constructor
  · intro svs env t dt
    obtain ⟨l, hok, hlen, helem⟩ := integrate_euler_ok svs env t dt
    exact ⟨l, hok, hlen, fun i hi => (helem i hi).2.2.2⟩
  · with_unfolding_all decide

/-- C3 witness: the universal part instantiated at the concrete
constant-rate variable. -/
theorem c3_euler_prestep_witness :
    ∃ l, integrate "Euler" [⟨"X", 0, "arb", .constRate 5⟩] envBare jan2020 1 = Except.ok l ∧
      l.length = 1 ∧
      ∀ i, i < 1 →
        (l.getD i svDummy).value = 0 + 1 * (5 + 0) := by
  obtain ⟨l, hok, hlen, helem⟩ :=
    c3_euler_prestep.1 [⟨"X", 0, "arb", .constRate 5⟩] envBare jan2020 1
  refine ⟨l, hok, hlen, fun i hi => ?_⟩
  interval_cases i
  · exact (helem 0 (by norm_num)).trans (by with_unfolding_all decide)

/-!
## C2 — food-web mass bound
-/

theorem dictGet_dictSet_self (d : List (String × ℚ)) (k : String) (v : ℚ) :
    dictGet (dictSet d k v) k 0 = v := by
  induction d with
  | nil => simp [dictSet, dictGet, List.find?]
  | cons p rest ih =>
    by_cases h : p.1 = k
    · simp [dictSet, h, dictGet, List.find?]
    · simp only [dictSet, if_neg h]
      simpa [dictGet, List.find?, h] using ih

/-- The consumption fold accumulates exactly the positive parts of the
clamped per-prey consumptions into the predator gain. -/
theorem preyStep_fold_gain (ingestion total : ℚ) (wp : List (SV × ℚ))
    (acc : List (String × ℚ) × ℚ) :
    (wp.foldl (preyStep ingestion total) acc).2 =
      acc.2 + (wp.map (fun p => pymax 0 (consumedAmount ingestion total p))).sum := by
  induction wp generalizing acc with
  | nil => simp
  | cons p rest ih =>
    rw [List.foldl_cons, ih]
    simp only [List.map_cons, List.sum_cons]
    unfold preyStep pymax
    by_cases h : consumedAmount ingestion total p ≤ 0
    · rw [if_pos h, if_neg (not_lt.mpr h)]
      ring
    · rw [if_neg h, if_pos (lt_of_not_le h)]
      dsimp only
      ring

/-- A fixture interaction for the shared-prey counterexample. -/
def interEx (p q : String) : FoodWebInteraction :=
  ⟨p, q, 1, [], some 1, none⟩

/-- Two predators, one prey: the food web of the counterexample. -/
def fwEx : FoodWeb := { interactions := [interEx "A" "P", interEx "B" "P"] }

/-- The shared prey `P` with biomass 1. -/
def svP : SV := ⟨"P", 1, "mg/L", .nutrient "PO4"⟩

/-- Predator `A`: eats only `P`, consumption rate 10, biomass 1. -/
def svA : SV := mkAnimal "A" 1 "mg/L" 1 0 0 [("P", 1)] 10

/-- Predator `B`: identical to `A`. -/
def svB : SV := mkAnimal "B" 1 "mg/L" 1 0 0 [("P", 1)] 10

/-- C2, counterexample: the per-prey clamp is applied per predator, not
across predators.  With two predators whose clamped consumption from `P`
is 1 each, the total consumed from `P` in one `compute_rates` call is 2,
exceeding `P`'s pre-step biomass `max(1, 0) = 1`. -/
theorem c2_mass_bound_counterexample :
    compute_rates fwEx [svP, svA, svB] = [("P", -2), ("A", 7/10), ("B", 7/10)] ∧
    pymax svP.value 0 = 1 ∧
    -(dictGet (compute_rates fwEx [svP, svA, svB]) "P" 0) = 2 ∧
    ¬ ((2 : ℚ) ≤ 1) := by
  refine ⟨?_, ?_, ?_, ?_⟩ <;> with_unfolding_all decide

/-- C2, amended: per predator, each clamped per-prey consumption is at
most the prey's pre-step `max(value, 0)`, and the predator's gain entry
receives exactly `(Σ consumed)·default_assimilation` (0.7 by default) on
top of whatever the consumption fold left there; across several
predators, however, the total consumed from one prey may exceed its
biomass. -/
theorem c2_mass_bound_amended :
    (∀ ingestion total (p : SV × ℚ),
      consumedAmount ingestion total p ≤ pymax p.1.value 0) ∧
    (∀ ingestion total (wp : List (SV × ℚ)) (rates : List (String × ℚ)),
      (wp.foldl (preyStep ingestion total) (rates, 0)).2 =
        (wp.map (fun p => pymax 0 (consumedAmount ingestion total p))).sum) ∧
    (∀ (fw : FoodWeb) (svs : List SV) (rates : List (String × ℚ))
       (entry : String × List FoodWebInteraction) (predator : SV),
      (match byNameLookup svs entry.1 with
       | some p => some p
       | none => byNormLookup svs (normalize_name entry.1)) = some predator →
      ¬ predator.consumptionRate ≤ 0 →
      ¬ (build_weights entry.2 predator.feedingPrefs fw.preference_source).isEmpty = true →
      ¬ (gatherWeightedPrey svs
          (build_weights entry.2 predator.feedingPrefs fw.preference_source)).2 ≤ 0 →
      ¬ predator.consumptionRate * pymax predator.value 0 ≤ 0 →
      0 < ((gatherWeightedPrey svs
             (build_weights entry.2 predator.feedingPrefs fw.preference_source)).1.foldl
              (preyStep (predator.consumptionRate * pymax predator.value 0)
                (gatherWeightedPrey svs
                  (build_weights entry.2 predator.feedingPrefs fw.preference_source)).2)
              (rates, 0)).2 →
      dictGet (processPredator fw svs rates entry) predator.name 0 =
        dictGet ((gatherWeightedPrey svs
            (build_weights entry.2 predator.feedingPrefs fw.preference_source)).1.foldl
              (preyStep (predator.consumptionRate * pymax predator.value 0)
                (gatherWeightedPrey svs
                  (build_weights entry.2 predator.feedingPrefs fw.preference_source)).2)
              (rates, 0)).1 predator.name 0 +
          ((gatherWeightedPrey svs
            (build_weights entry.2 predator.feedingPrefs fw.preference_source)).1.map
              (fun p => pymax 0 (consumedAmount
                (predator.consumptionRate * pymax predator.value 0)
                (gatherWeightedPrey svs
                  (build_weights entry.2 predator.feedingPrefs fw.preference_source)).2 p))).sum *
            fw.default_assimilation) := by
  refine ⟨fun ingestion total p => pymin_le_right _ _,
    fun ingestion total wp rates => by rw [preyStep_fold_gain]; ring,
    fun fw svs rates entry predator hres hcr hw hwp hing hgain => ?_⟩
  unfold processPredator
  rw [hres]
  simp only [if_neg hcr, if_neg hw, if_neg hwp, if_neg hing, if_pos hgain]
  rw [dictGet_dictSet_self, preyStep_fold_gain]
  ring

/-- C2 witness: the amended statement applied to predator `A` of the
counterexample food web. -/
theorem c2_mass_bound_witness :
    consumedAmount 10 1 ((svP, 1) : SV × ℚ) ≤ pymax svP.value 0 ∧
    dictGet (processPredator fwEx [svP, svA, svB] [] ("A", [interEx "A" "P"])) "A" 0 =
      dictGet ((gatherWeightedPrey [svP, svA, svB]
          (build_weights [interEx "A" "P"] svA.feedingPrefs fwEx.preference_source)).1.foldl
            (preyStep (svA.consumptionRate * pymax svA.value 0)
              (gatherWeightedPrey [svP, svA, svB]
                (build_weights [interEx "A" "P"] svA.feedingPrefs fwEx.preference_source)).2)
            ([], 0)).1 "A" 0 +
        ((gatherWeightedPrey [svP, svA, svB]
          (build_weights [interEx "A" "P"] svA.feedingPrefs fwEx.preference_source)).1.map
            (fun p => pymax 0 (consumedAmount
              (svA.consumptionRate * pymax svA.value 0)
              (gatherWeightedPrey [svP, svA, svB]
                (build_weights [interEx "A" "P"] svA.feedingPrefs fwEx.preference_source)).2 p))).sum *
          fwEx.default_assimilation := by
  constructor
  · exact c2_mass_bound_amended.1 10 1 (svP, 1)
  · have h := c2_mass_bound_amended.2.2 fwEx [svP, svA, svB] [] ("A", [interEx "A" "P"]) svA
      (by with_unfolding_all decide) (by with_unfolding_all decide)
      (by with_unfolding_all decide) (by with_unfolding_all decide)
      (by with_unfolding_all decide) (by with_unfolding_all decide)
    exact h


/-!
## C6 — stratification rule of `get_temperature_pair`
-/

/-- A `FloatMath` stand-in (all trigonometric values 0). -/
def fmZero : FloatMath := ⟨fun _ => 0, fun _ => 0, 0⟩

/-- Constant-mode temperature environment with the given epi/hypo values. -/
def envTemp (e h : ℚ) : Env :=
  { envBare with temp_forcing_mode := "constant",
                 temp_epi_constant := some e, temp_hypo_constant := some h }

theorem mergeStrat_self (a : ℚ) : mergeStrat a a = (some a, some a, false) := by
  unfold mergeStrat
  rw [if_neg]
  rw [sub_self]
  simp [pyabs]

/-- C6: whenever `get_temperature_pair` reports a resolved pair, the
stratified flag holds exactly when `|epi − hypo| > 3.0` (strict), and a
non-stratified report collapses hypo to epi; when the mode dispatch
resolves only one side, that side is mirrored into the other; when
neither side resolves the result is `(None, None, False)`.  Concretely:
constants 10/13 give `(10, 10, False)` and 10/13.01 give
`(10, 13.01, True)`. -/
theorem c6_stratification :
    (∀ fm env t e h s, get_temperature_pair fm env t = (some e, some h, s) →
      ((s = true ↔ 3 < pyabs (e - h)) ∧ (s = false → h = e))) ∧
    (∀ fm env t e, tempDispatch fm env t = some (some e, none) →
      get_temperature_pair fm env t = (some e, some e, false)) ∧
    (∀ fm env t h, tempDispatch fm env t = some (none, some h) →
      get_temperature_pair fm env t = (some h, some h, false)) ∧
    (∀ fm env t, (tempDispatch fm env t = none ∨ tempDispatch fm env t = some (none, none)) →
      get_temperature_pair fm env t = (none, none, false)) ∧
    get_temperature_pair fmZero (envTemp 10 13) jan2020 = (some 10, some 10, false) ∧
    get_temperature_pair fmZero (envTemp 10 (1301/100)) jan2020 =
      (some 10, some (1301/100), true) := by
  refine ⟨?_, ?_, ?_, ?_, ?_, ?_⟩
  · intro fm env t e h s hres
    unfold get_temperature_pair at hres
    cases hdisp : tempDispatch fm env t with
    | none => rw [hdisp] at hres; cases hres
    | some pair =>
      rw [hdisp] at hres
      obtain ⟨e?, h?⟩ := pair
      cases e? with
      | none =>
        cases h? with
        | none => dsimp only at hres; cases hres
        | some b =>
          dsimp only at hres
          rw [mergeStrat_self] at hres
          obtain ⟨he, hh, hs⟩ : b = e ∧ b = h ∧ false = s := by
            simpa using hres
          subst he; subst hh; subst hs
          refine ⟨by simp [sub_self, pyabs], fun _ => rfl⟩
      | some a =>
        cases h? with
        | none =>
          dsimp only at hres
          rw [mergeStrat_self] at hres
          obtain ⟨he, hh, hs⟩ : a = e ∧ a = h ∧ false = s := by
            simpa using hres
          subst he; subst hh; subst hs
          refine ⟨by simp [sub_self, pyabs], fun _ => rfl⟩
        | some b =>
          dsimp only at hres
          unfold mergeStrat at hres
          by_cases hc : 3 < pyabs (a - b)
          · rw [if_pos hc] at hres
            obtain ⟨he, hh, hs⟩ : a = e ∧ b = h ∧ true = s := by
              simpa using hres
            subst he; subst hh; subst hs
            exact ⟨by simpa using hc, fun hcontra => by cases hcontra⟩
          · rw [if_neg hc] at hres
            obtain ⟨he, hh, hs⟩ : a = e ∧ a = h ∧ false = s := by
              simpa using hres
            subst he; subst hh; subst hs
            refine ⟨by simp [sub_self, pyabs], fun _ => rfl⟩
  · intro fm env t e hdisp
    unfold get_temperature_pair
    rw [hdisp]
    dsimp only
    rw [mergeStrat_self]
  · intro fm env t h hdisp
    unfold get_temperature_pair
    rw [hdisp]
    dsimp only
    rw [mergeStrat_self]
  · intro fm env t hdisp
    unfold get_temperature_pair
    rcases hdisp with hdisp | hdisp <;> rw [hdisp]
  · with_unfolding_all decide
  · with_unfolding_all decide

/-- C6 witness: the general stratification characterisation applied at
the concrete boundary input 10/13.01. -/
theorem c6_stratification_witness :
    (true = true ↔ 3 < pyabs ((10 : ℚ) - 1301/100)) ∧
    (true = false → (1301/100 : ℚ) = 10) := by
  exact c6_stratification.1 fmZero (envTemp 10 (1301/100)) jan2020 10 (1301/100) true
    (by with_unfolding_all decide)

/-!
## C7 — deterministic default wind synthesis
-/

theorem foldl_add_two (l : List (Nat × ℚ × ℚ)) (f g : Nat × ℚ × ℚ → ℚ) (init : ℚ) :
    l.foldl (fun acc term => acc + f term + g term) init =
      init + (l.map (fun term => f term + g term)).sum := by
  induction l generalizing init with
  | nil => simp
  | cons p rest ih =>
    rw [List.foldl_cons, ih]
    simp only [List.map_cons, List.sum_cons]
    ring

/-- An environment in `default_series` wind mode with the given mean. -/
def envWind (m : Option ℚ) : Env :=
  { envBare with wind_forcing_mode := "default_series", wind_mean := m }

/-- C7: in `default_series` wind mode with configured mean `m`, the wind
value is `max(m' + Σ(aᵢ·cos(fᵢθ) + bᵢ·sin(fᵢθ)), 0)` over the fixed
harmonic table with `θ = 2π·d/365`, `m' = m` if `m > 0` else 3.0; the
source table is a permutation of the table printed in the spec (and the
two give the same sum); the result is never negative; and the synthesis
is a pure function of `(mean, day-of-year)`. -/
theorem c7_default_wind :
    (∀ fm (env : Env) (t : Date) (m : ℚ), env.wind_forcing_mode = "default_series" →
      env.wind_mean = some m →
      get_wind fm env t = some (pymax
        ((if 0 < m then m else 3) +
          (specWindTable.map (fun term =>
            term.2.1 * fm.cos (2 * fm.pi * (dayOfYear t.year t.month t.day : ℚ) / 365 * term.1) +
            term.2.2 * fm.sin (2 * fm.pi * (dayOfYear t.year t.month t.day : ℚ) / 365 * term.1))).sum)
        0)) ∧
    DEFAULT_WIND_TERMS.Perm specWindTable ∧
    (∀ fm (env : Env) (t : Date) (v : ℚ), env.wind_forcing_mode = "default_series" →
      get_wind fm env t = some v → 0 ≤ v) ∧
    (∀ fm (env env' : Env) (t t' : Date), env.wind_mean = env'.wind_mean →
      dayOfYear t.year t.month t.day = dayOfYear t'.year t'.month t'.day →
      default_wind_value fm env t = default_wind_value fm env' t') := by
  have hwind : ∀ fm (env : Env) (t : Date) (m : ℚ), env.wind_mean = some m →
      default_wind_value fm env t = some (pymax
        ((if 0 < m then m else 3) +
          (specWindTable.map (fun term =>
            term.2.1 * fm.cos (2 * fm.pi * (dayOfYear t.year t.month t.day : ℚ) / 365 * term.1) +
            term.2.2 * fm.sin (2 * fm.pi * (dayOfYear t.year t.month t.day : ℚ) / 365 * term.1))).sum)
        0) := by
    intro fm env t m hm
    unfold default_wind_value
    rw [hm]
    dsimp only
    rw [foldl_add_two _ (fun term => term.2.1 * fm.cos
        (2 * fm.pi * (dayOfYear t.year t.month t.day : ℚ) / 365 * term.1))
      (fun term => term.2.2 * fm.sin
        (2 * fm.pi * (dayOfYear t.year t.month t.day : ℚ) / 365 * term.1))]
    congr 2
    simp only [DEFAULT_WIND_TERMS, specWindTable, List.map_cons, List.map_nil, List.sum_cons,
      List.sum_nil]
    ring
  refine ⟨?_, ?_, ?_, ?_⟩
  · intro fm env t m hmode hm
    unfold get_wind
    rw [if_pos hmode]
    exact hwind fm env t m hm
  · unfold DEFAULT_WIND_TERMS specWindTable
    have h1 : List.Perm
        ([(4, -2158/10000, -6634/10000), (8, -264/10000, -2766/10000),
      (16, 236/10000, -3492/10000), (32, -442/1000, 89/100),
      (64, -14385/10000, 634/1000), (128, 935/10000, -106/100),
      (200, -564/1000, -291/1000), (300, -6484/10000, 6162/10000),
      (6, 1083/10000, 4047/10000)] ++ ((3:Nat), (268/10000:ℚ), (-1209/10000:ℚ)) :: [])
        ((3, 268/10000, -1209/10000) :: ([(4, -2158/10000, -6634/10000), (8, -264/10000, -2766/10000),
      (16, 236/10000, -3492/10000), (32, -442/1000, 89/100),
      (64, -14385/10000, 634/1000), (128, 935/10000, -106/100),
      (200, -564/1000, -291/1000), (300, -6484/10000, 6162/10000),
      (6, 1083/10000, 4047/10000)] ++ [])) := List.perm_middle
    have h2 : List.Perm
        ([(8, -264/10000, -2766/10000),
        (16, 236/10000, -3492/10000), (32, -442/1000, 89/100),
        (64, -14385/10000, 634/1000), (128, 935/10000, -106/100),
        (200, -564/1000, -291/1000), (300, -6484/10000, 6162/10000)] ++ ((6:Nat), (1083/10000:ℚ), (4047/10000:ℚ)) :: [])
        ((6, 1083/10000, 4047/10000) :: ([(8, -264/10000, -2766/10000),
        (16, 236/10000, -3492/10000), (32, -442/1000, 89/100),
        (64, -14385/10000, 634/1000), (128, 935/10000, -106/100),
        (200, -564/1000, -291/1000), (300, -6484/10000, 6162/10000)] ++ [])) := List.perm_middle
    exact List.Perm.cons _ (List.Perm.cons _
      (List.Perm.trans h1 (List.Perm.cons _ (List.Perm.cons _ h2))))
  · intro fm env t v hmode hv
    unfold get_wind at hv
    rw [if_pos hmode] at hv
    cases hm : env.wind_mean with
    | none => rw [default_wind_value, hm] at hv; cases hv
    | some m =>
      rw [hwind fm env t m hm] at hv
      obtain rfl : _ = v := by simpa using hv
      exact pymax_nonneg_right _
  · intro fm env env' t t' hmean hday
    unfold default_wind_value
    rw [hmean]
    cases env'.wind_mean with
    | none => rfl
    | some m => rw [hday]

/-- C7 witness: the formula applied with mean 5 on a concrete date. -/
theorem c7_default_wind_witness :
    get_wind fmZero (envWind (some 5)) jan2020 = some (pymax
      ((if 0 < (5:ℚ) then (5:ℚ) else 3) +
        (specWindTable.map (fun term =>
          term.2.1 * fmZero.cos (2 * fmZero.pi * (dayOfYear jan2020.year jan2020.month jan2020.day : ℚ) / 365 * term.1) +
          term.2.2 * fmZero.sin (2 * fmZero.pi * (dayOfYear jan2020.year jan2020.month jan2020.day : ℚ) / 365 * term.1))).sum)
      0) := by
  exact c7_default_wind.1 fmZero (envWind (some 5)) jan2020 5 (by with_unfolding_all decide)
    (by with_unfolding_all decide)

/-!
## C8 — missing forcing coverage aborts the tick
-/

/-- A tick whose temperature pair is unresolved aborts the loop with the
temperature error, regardless of the simulation state (so no snapshot of
that tick is ever appended). -/
theorem runLoop_temp_abort (fm : FloatMath) (time_end : Date) (dt : ℚ) (fuel : Nat)
    (st : Sim) (t : Date) (hlt : dlt t time_end) (hact : tempActive st.env = true)
    (hpair : get_temperature_pair fm st.env t = (none, none, false)) :
    runLoop fm time_end dt (fuel + 1) st t = .error tempErrorMsg := by
  unfold runLoop
  rw [if_neg (not_not_intro hlt)]
  unfold tickTemp
  rw [if_pos hact, hpair]

/-- A tick whose wind forcing is unresolved (with temperature resolving
or inactive) aborts the loop with the wind error. -/
theorem runLoop_wind_abort (fm : FloatMath) (time_end : Date) (dt : ℚ) (fuel : Nat)
    (st : Sim) (t : Date) (hlt : dlt t time_end)
    (htemp : tempActive st.env = true →
      ∃ e h s, get_temperature_pair fm st.env t = (some e, some h, s))
    (hact : windActive st.env = true) (hwind : get_wind fm st.env t = none) :
    runLoop fm time_end dt (fuel + 1) st t = .error windErrorMsg := by
  unfold runLoop
  rw [if_neg (not_not_intro hlt)]
  have hw : ∀ svs, tickWind fm st.env t svs = .error windErrorMsg := by
    intro svs
    unfold tickWind
    rw [if_pos hact, hwind]
  unfold tickTemp
  by_cases ht : tempActive st.env = true
  · obtain ⟨e, h, s, hpair⟩ := htemp ht
    rw [if_pos ht, hpair]
    dsimp only
    rw [hw]
  · rw [if_neg ht]
    dsimp only
    rw [hw]

/-- A tick whose light forcing is unresolved (with temperature and wind
resolving or inactive) aborts the loop with the light error. -/
theorem runLoop_light_abort (fm : FloatMath) (time_end : Date) (dt : ℚ) (fuel : Nat)
    (st : Sim) (t : Date) (hlt : dlt t time_end)
    (htemp : tempActive st.env = true →
      ∃ e h s, get_temperature_pair fm st.env t = (some e, some h, s))
    (hwind : windActive st.env = true → ∃ w, get_wind fm st.env t = some w)
    (hact : lightActive st.env = true) (hlight : get_light fm st.env t = none) :
    runLoop fm time_end dt (fuel + 1) st t = .error lightErrorMsg := by
  unfold runLoop
  rw [if_neg (not_not_intro hlt)]
  have hl : ∀ svs, tickLight fm st.env t svs = .error lightErrorMsg := by
    intro svs
    unfold tickLight
    rw [if_pos hact, hlight]
  have hwok : ∀ svs, ∃ svs', tickWind fm st.env t svs = .ok svs' := by
    intro svs
    unfold tickWind
    by_cases hw : windActive st.env = true
    · obtain ⟨w, hww⟩ := hwind hw
      rw [if_pos hw, hww]
      exact ⟨_, rfl⟩
    · rw [if_neg hw]
      exact ⟨_, rfl⟩
  unfold tickTemp
  by_cases ht : tempActive st.env = true
  · obtain ⟨e, h, s, hpair⟩ := htemp ht
    rw [if_pos ht, hpair]
    dsimp only
    obtain ⟨svs', hsvs'⟩ := hwok (setFirstByName st.state_vars "temperature" e)
    rw [hsvs']
    dsimp only
    rw [hl]
  · rw [if_neg ht]
    dsimp only
    obtain ⟨svs', hsvs'⟩ := hwok st.state_vars
    rw [hsvs']
    dsimp only
    rw [hl]

/-- C8: when a configured forcing cannot produce a value at a tick's
timestamp, the loop aborts at that tick with the corresponding error —
before that tick's snapshot exists — and an aborted `run` returns only
the error, never a simulation state (hence no output log). -/
theorem c8_missing_forcing_aborts :
    (∀ fm time_end (dt : ℚ) fuel (st : Sim) (t : Date), dlt t time_end →
      tempActive st.env = true →
      get_temperature_pair fm st.env t = (none, none, false) →
      runLoop fm time_end dt (fuel + 1) st t = .error tempErrorMsg ∧
        ∀ st', runLoop fm time_end dt (fuel + 1) st t ≠ .ok st') ∧
    (∀ fm time_end (dt : ℚ) fuel (st : Sim) (t : Date), dlt t time_end →
      (tempActive st.env = true →
        ∃ e h s, get_temperature_pair fm st.env t = (some e, some h, s)) →
      windActive st.env = true → get_wind fm st.env t = none →
      runLoop fm time_end dt (fuel + 1) st t = .error windErrorMsg) ∧
    (∀ fm time_end (dt : ℚ) fuel (st : Sim) (t : Date), dlt t time_end →
      (tempActive st.env = true →
        ∃ e h s, get_temperature_pair fm st.env t = (some e, some h, s)) →
      (windActive st.env = true → ∃ w, get_wind fm st.env t = some w) →
      lightActive st.env = true → get_light fm st.env t = none →
      runLoop fm time_end dt (fuel + 1) st t = .error lightErrorMsg) ∧
    (∀ fm (sim : Sim) time_end (dt : ℚ) (now : Date) fuel,
      sim.state_vars.isEmpty = false →
      dlt (startTime sim.env now) time_end →
      tempActive sim.env = true →
      get_temperature_pair fm sim.env (startTime sim.env now) = (none, none, false) →
      run fm sim time_end dt now (fuel + 1) = .error tempErrorMsg) := by
  refine ⟨?_, ?_, ?_, ?_⟩
  · intro fm time_end dt fuel st t hlt hact hpair
    have habort := runLoop_temp_abort fm time_end dt fuel st t hlt hact hpair
    exact ⟨habort, fun st' hok => by rw [habort] at hok; cases hok⟩
  · exact fun fm time_end dt fuel st t hlt htemp hact hwind =>
      runLoop_wind_abort fm time_end dt fuel st t hlt htemp hact hwind
  · exact fun fm time_end dt fuel st t hlt htemp hwind hact hlight =>
      runLoop_light_abort fm time_end dt fuel st t hlt htemp hwind hact hlight
  · intro fm sim time_end dt now fuel hsv hlt hact hpair
    unfold run
    rw [hsv, if_neg Bool.false_ne_true]
    exact runLoop_temp_abort fm time_end dt fuel sim (startTime sim.env now) hlt hact hpair

/-- A series-mode temperature environment with no epilimnion series:
its temperature pair never resolves. -/
def envTempFail : Env := { envBare with temp_forcing_mode := "series" }

/-- A simulation over `envTempFail` with one inert state variable. -/
def simTempFail : Sim := { env := envTempFail, state_vars := [⟨"X", 0, "arb", .constRate 0⟩] }

/-- C8 witness: the run-level abort applied to a concrete simulation
whose temperature series is missing. -/
theorem c8_missing_forcing_witness :
    run fmZero simTempFail ⟨2020, 1, 2, 0⟩ 1 jan2020 3 = .error tempErrorMsg :=
  c8_missing_forcing_aborts.2.2.2 fmZero simTempFail ⟨2020, 1, 2, 0⟩ 1 jan2020 2
    (by with_unfolding_all decide) (by with_unfolding_all decide)
    (by with_unfolding_all decide) (by with_unfolding_all decide)

/-!
## C9 — determinism and the wall-clock fallback
-/

/-- Constant forcing on all three families; both flow series empty. -/
def envC9 : Env :=
  { envBare with temp_forcing_mode := "constant",
                 temp_epi_constant := some 10, temp_hypo_constant := some 10,
                 wind_constant := some 1, light_constant := some 1 }

/-- A simulation whose start time falls back to the wall clock. -/
def simC9 : Sim := { env := envC9, state_vars := [⟨"X", 0, "arb", .constRate 0⟩] }

/-- C9, counterexample: with both flow series empty, `Simulation.run`
starts at `datetime.utcnow()`, so two executions from identical
environments, state variables and solver configuration — differing only
in the wall clock — produce different output logs (here even different
log lengths). -/
theorem c9_determinism_counterexample :
    (run fmZero simC9 ⟨2020, 1, 3, 0⟩ 1 ⟨2020, 1, 1, 0⟩ 10).map output_results ≠
      (run fmZero simC9 ⟨2020, 1, 3, 0⟩ 1 ⟨2020, 1, 2, 0⟩ 10).map output_results ∧
    simC9.env.inflow_series = [] ∧ simC9.env.outflow_series = [] ∧
    simC9.state_vars.isEmpty = false := by
  refine ⟨?_, rfl, rfl, rfl⟩
  with_unfolding_all decide

theorem minKey_irrel (s : Series) (hs : s.isEmpty = false) (d1 d2 : Date) :
    minKey s d1 = minKey s d2 := by
  cases s with
  | nil => cases hs
  | cons p rest => rfl

theorem startTime_irrel (env : Env) (n1 n2 : Date)
    (h : env.inflow_series.isEmpty = false ∨ env.outflow_series.isEmpty = false) :
    startTime env n1 = startTime env n2 := by
  unfold startTime
  by_cases hin : env.inflow_series.isEmpty = true
  · have hout : env.outflow_series.isEmpty = false := by
      rcases h with h | h
      · rw [hin] at h; cases h
      · exact h
    rw [if_neg (not_not_intro hin), if_neg (not_not_intro hin),
      if_pos (fun hc => Bool.false_ne_true (hout ▸ hc)),
      if_pos (fun hc => Bool.false_ne_true (hout ▸ hc))]
    exact minKey_irrel _ hout n1 n2
  · have hin' : env.inflow_series.isEmpty = false := by
      cases hb : env.inflow_series.isEmpty
      · rfl
      · exact absurd hb hin
    rw [if_pos (fun hc => Bool.false_ne_true (hin' ▸ hc)),
      if_pos (fun hc => Bool.false_ne_true (hin' ▸ hc))]
    exact minKey_irrel _ hin' n1 n2

/-- C9, amended: the run is deterministic — independent of the wall
clock — whenever the state-variable collection is empty or at least one
flow series is non-empty (otherwise the start tick is
`datetime.utcnow()` and the log's timestamps depend on it); and the
series resolver is a pure function: identical series and timestamps give
identical values. -/
theorem c9_determinism_amended :
    (∀ fm (sim : Sim) (time_end : Date) (dt : ℚ) (fuel : Nat) (now1 now2 : Date),
      (sim.state_vars.isEmpty = true ∨ sim.env.inflow_series.isEmpty = false ∨
        sim.env.outflow_series.isEmpty = false) →
      run fm sim time_end dt now1 fuel = run fm sim time_end dt now2 fuel) ∧
    (∀ (s1 s2 : Series) (t1 t2 : Date), s1 = s2 → t1 = t2 →
      get_series_value s1 t1 = get_series_value s2 t2) := by
  constructor
  · intro fm sim time_end dt fuel now1 now2 h
    unfold run
    rcases h with h | h | h
    · rw [h, if_pos rfl, if_pos rfl]
    · rw [startTime_irrel sim.env now1 now2 (Or.inl h)]
    · rw [startTime_irrel sim.env now1 now2 (Or.inr h)]
  · intro s1 s2 t1 t2 hs ht
    rw [hs, ht]

/-- The environment of `simC9` with a one-point inflow series. -/
def envC10 : Env := { envC9 with inflow_series := [(jan2020, 5)] }

/-- A simulation with a non-empty inflow series. -/
def simC10 : Sim := { env := envC10, state_vars := [⟨"X", 0, "arb", .constRate 0⟩] }

/-- C9 witness: determinism applied to the concrete simulation with a
non-empty inflow series, at two different wall-clock instants. -/
theorem c9_determinism_witness :
    run fmZero simC10 ⟨2020, 1, 2, 0⟩ 1 ⟨2019, 5, 5, 0⟩ 3 =
      run fmZero simC10 ⟨2020, 1, 2, 0⟩ 1 ⟨2020, 7, 7, 0⟩ 3 :=
  c9_determinism_amended.1 fmZero simC10 ⟨2020, 1, 2, 0⟩ 1 3 ⟨2019, 5, 5, 0⟩ ⟨2020, 7, 7, 0⟩
    (Or.inr (Or.inl (by with_unfolding_all decide)))

/-!
## C10 — start-time selection and the empty-collection fast path
-/

/-- Completed iterations of the loop only append to the output log, and
the first appended snapshot carries the starting timestamp. -/
theorem runLoop_outputs (fm : FloatMath) (time_end : Date) (dt : ℚ) :
    ∀ (fuel : Nat) (st : Sim) (t : Date) (st' : Sim),
      runLoop fm time_end dt fuel st t = .ok st' →
      st'.outputs = st.outputs ∨
        ∃ snap rest, st'.outputs = st.outputs ++ (t, snap) :: rest := by
  intro fuel
  induction fuel with
  | zero =>
    intro st t st' h
    obtain rfl : st = st' := by cases h; rfl
    exact Or.inl rfl
  | succ n ih =>
    intro st t st' h
    unfold runLoop at h
    by_cases hlt : dlt t time_end
    · rw [if_neg (not_not_intro hlt)] at h
      cases h1 : tickTemp fm st.env t st.state_vars with
      | error e => rw [h1] at h; cases h
      | ok pair1 =>
        rw [h1] at h
        obtain ⟨svs1, tempInfo⟩ := pair1
        dsimp only at h
        cases h2 : tickWind fm st.env t svs1 with
        | error e => rw [h2] at h; cases h
        | ok svs2 =>
          rw [h2] at h
          dsimp only at h
          cases h3 : tickLight fm st.env t svs2 with
          | error e => rw [h3] at h; cases h
          | ok svs3 =>
            rw [h3] at h
            dsimp only at h
            cases h4 : integrate st.solver_method svs3 st.env t dt with
            | error e => rw [h4] at h; cases h
            | ok svs4 =>
              rw [h4] at h
              dsimp only at h
              rcases ih _ _ _ h with h5 | ⟨snap, rest, h5⟩
              · rw [h5]
                exact Or.inr ⟨tickSnapshot svs4 tempInfo, [], by simp⟩
              · rw [h5]
                exact Or.inr ⟨tickSnapshot svs4 tempInfo,
                  (addDelta t dt, snap) :: rest, by simp⟩
    · rw [if_pos hlt] at h
      obtain rfl : st = st' := by cases h; rfl
      exact Or.inl rfl

/-- C10: with an empty state-variable collection, `run` returns at once
with no output and no error; with state variables present, the loop
starts at the earliest inflow key when the inflow series is non-empty
(else the earliest outflow key), so the first logged timestamp equals
that earliest key whenever at least one tick completes. -/
theorem c10_start_time :
    (∀ fm (sim : Sim) (time_end : Date) (dt : ℚ) (now : Date) (fuel : Nat),
      sim.state_vars.isEmpty = true →
      run fm sim time_end dt now fuel = .ok sim) ∧
    (∀ fm (sim : Sim) (time_end : Date) (dt : ℚ) (now : Date) (fuel : Nat) (st' : Sim),
      sim.outputs = [] → sim.env.inflow_series.isEmpty = false →
      run fm sim time_end dt now fuel = .ok st' → st'.outputs.isEmpty = false →
      (st'.outputs.headD (someDate, [])).1 = minKey sim.env.inflow_series now) ∧
    (∀ fm (sim : Sim) (time_end : Date) (dt : ℚ) (now : Date) (fuel : Nat) (st' : Sim),
      sim.outputs = [] → sim.env.inflow_series.isEmpty = true →
      sim.env.outflow_series.isEmpty = false →
      run fm sim time_end dt now fuel = .ok st' → st'.outputs.isEmpty = false →
      (st'.outputs.headD (someDate, [])).1 = minKey sim.env.outflow_series now) := by
  have hstart : ∀ fm (sim : Sim) time_end (dt : ℚ) (now : Date) fuel (st' : Sim),
      sim.outputs = [] →
      run fm sim time_end dt now fuel = .ok st' → st'.outputs.isEmpty = false →
      (st'.outputs.headD (someDate, [])).1 = startTime sim.env now := by
    intro fm sim time_end dt now fuel st' hout hrun hne
    unfold run at hrun
    by_cases hsv : sim.state_vars.isEmpty = true
    · rw [if_pos hsv] at hrun
      obtain rfl : sim = st' := by cases hrun; rfl
      rw [hout] at hne
      cases hne
    · rw [if_neg hsv] at hrun
      rcases runLoop_outputs fm time_end dt fuel sim (startTime sim.env now) st' hrun with
        h | ⟨snap, rest, h⟩
      · rw [h, hout] at hne
        cases hne
      · rw [h, hout]
        rfl
  refine ⟨?_, ?_, ?_⟩
  · intro fm sim time_end dt now fuel hsv
    unfold run
    rw [if_pos hsv]
  · intro fm sim time_end dt now fuel st' hout hin hrun hne
    rw [hstart fm sim time_end dt now fuel st' hout hrun hne]
    unfold startTime
    rw [if_pos (by simp [hin])]
  · intro fm sim time_end dt now fuel st' hout hin hoone hrun hne
    rw [hstart fm sim time_end dt now fuel st' hout hrun hne]
    unfold startTime
    rw [if_neg (by simp [hin]), if_pos (by simp [hoone])]

/-- A simulation with no state variables at all. -/
def simEmpty : Sim := { env := envBare, state_vars := [] }

/-- C10 witness: the empty-collection fast path at a concrete input. -/
theorem c10_start_time_witness :
    run fmZero simEmpty ⟨2020, 1, 2, 0⟩ 1 jan2020 3 = .ok simEmpty :=
  c10_start_time.1 fmZero simEmpty ⟨2020, 1, 2, 0⟩ 1 jan2020 3 rfl

/-!
## C4 — the series resolver inside the covered range
-/

theorem contains_keys_iff (l : List Date) (t : Date) :
    l.contains t = true ↔ t ∈ l := by
  simp [List.contains, List.elem_iff]

theorem dictLookup_of_mem (s : Series) (t : Date) (v : ℚ)
    (hnd : (keys s).Nodup) (hmem : (t, v) ∈ s) : dictLookup s t = v := by
  induction s with
  | nil => cases hmem
  | cons p rest ih =>
    rcases List.mem_cons.mp hmem with rfl | hmem'
    · unfold dictLookup
      simp [List.find?]
    · have hne : ¬ p.1 = t := by
        intro hc
        have h1 : t ∈ keys rest := List.mem_map.mpr ⟨(t, v), hmem', rfl⟩
        have h2 : p.1 ∈ keys rest := by rw [hc]; exact h1
        exact (List.nodup_cons.mp hnd).1 h2
      unfold dictLookup
      rw [List.find?]
      simp only [decide_eq_false_iff_not.mpr hne]
      exact ih (List.nodup_cons.mp hnd).2 hmem'

theorem sorted_dates (s : Series) : List.Sorted dle (get_sorted_dates s) :=
  List.sorted_insertionSort dle (keys s)

theorem perm_sorted_dates (s : Series) : List.Perm (get_sorted_dates s) (keys s) :=
  List.perm_insertionSort dle (keys s)

theorem mem_sorted_dates (s : Series) (d : Date) :
    d ∈ get_sorted_dates s ↔ d ∈ keys s :=
  (perm_sorted_dates s).mem_iff

/-- In a chronologically sorted list, earlier positions are earlier in
time. -/
theorem sorted_rel_of_le (l : List Date) (hs : List.Sorted dle l)
    (i j : Nat) (hij : i ≤ j) (hj : j < l.length) :
    dle (l.get ⟨i, lt_of_le_of_lt hij hj⟩) (l.get ⟨j, hj⟩) := by
  rcases lt_or_eq_of_le hij with hlt | rfl
  · exact List.pairwise_iff_get.mp hs ⟨i, lt_of_le_of_lt hij hj⟩ ⟨j, hj⟩ hlt
  · exact le_refl _

/-- `bisect_left` on a sorted list whose `i`-th and `(i+1)`-st entries
strictly bracket `t` returns `i+1`. -/
theorem bisect_left_bracket (l : List Date) (hs : List.Sorted dle l) (t : Date)
    (i : Nat) (hi : i + 1 < l.length)
    (hl : dlt (l.get ⟨i, by omega⟩) t) (hr : dlt t (l.get ⟨i + 1, hi⟩)) :
    bisect_left l t = i + 1 := by
  unfold bisect_left
  have hsplit := List.take_append_drop (i + 1) l
  have htlen : (l.take (i + 1)).length = i + 1 := by
    rw [List.length_take]
    omega
  have htake : ∀ d ∈ l.take (i + 1), decide (dlt d t) = true := by
    intro d hd
    obtain ⟨⟨j, hj⟩, hdj⟩ := List.mem_iff_get.mp hd
    have hj' : j < i + 1 := by rw [htlen] at hj; exact hj
    have hjl : j < l.length := by omega
    have hget : (l.take (i + 1)).get ⟨j, hj⟩ = l.get ⟨j, hjl⟩ := by
      simp [List.getElem_take]
    have hle : dle (l.get ⟨j, hjl⟩) (l.get ⟨i, by omega⟩) :=
      sorted_rel_of_le l hs j i (by omega) (by omega)
    have hdt : dlt d t := lt_of_le_of_lt (by rw [← hdj, hget]; exact hle) hl
    exact decide_eq_true hdt
  have hdrop : ∀ d ∈ l.drop (i + 1), ¬ decide (dlt d t) = true := by
    intro d hd
    obtain ⟨⟨j, hj⟩, hdj⟩ := List.mem_iff_get.mp hd
    have hjl : i + 1 + j < l.length := by
      have hj2 := hj
      rw [List.length_drop] at hj2
      omega
    have hget : (l.drop (i + 1)).get ⟨j, hj⟩ = l.get ⟨i + 1 + j, hjl⟩ := by
      simp [List.getElem_drop]
    have hle : dle (l.get ⟨i + 1, hi⟩) (l.get ⟨i + 1 + j, hjl⟩) :=
      sorted_rel_of_le l hs (i + 1) (i + 1 + j) (by omega) hjl
    have hgt : dlt t d := by
      rw [← hdj, hget]
      exact lt_of_lt_of_le hr hle
    simp only [decide_eq_true_eq]
    exact fun hc => absurd (lt_trans hc hgt) (lt_irrefl _)
  calc l.countP (fun d => decide (dlt d t))
      = ((l.take (i + 1)) ++ (l.drop (i + 1))).countP (fun d => decide (dlt d t)) := by
        rw [hsplit]
    _ = (l.take (i + 1)).countP (fun d => decide (dlt d t)) +
          (l.drop (i + 1)).countP (fun d => decide (dlt d t)) :=
        List.countP_append _ _ _
    _ = (i + 1) + 0 := by
        rw [List.countP_eq_length.mpr htake, htlen, List.countP_eq_zero.mpr hdrop]
    _ = i + 1 := by omega

/-- `interpolate_linear` on a sorted bracketing pair returns the linear
interpolation between the bracketing values. -/
theorem interpolate_linear_bracket (s : Series) (l : List Date) (t : Date)
    (hs : List.Sorted dle l) (i : Nat) (hi : i + 1 < l.length)
    (hl : dlt (l.get ⟨i, by omega⟩) t) (hr : dlt t (l.get ⟨i + 1, hi⟩)) :
    interpolate_linear s l t =
      dictLookup s (l.get ⟨i, by omega⟩) +
        (toTicks t - toTicks (l.get ⟨i, by omega⟩)) /
          (toTicks (l.get ⟨i + 1, hi⟩) - toTicks (l.get ⟨i, by omega⟩)) *
        (dictLookup s (l.get ⟨i + 1, hi⟩) - dictLookup s (l.get ⟨i, by omega⟩)) := by
  have hbis := bisect_left_bracket l hs t i hi hl hr
  unfold interpolate_linear
  rw [hbis]
  rw [if_neg (by omega), if_neg (by omega)]
  have hii : i < l.length := by omega
  have hgd1 : l.getD (i + 1 - 1) someDate = l.get ⟨i, hii⟩ := by
    rw [List.getD_eq_getElem l someDate (by omega : i + 1 - 1 < l.length)]
    simp
  have hgd2 : l.getD (i + 1) someDate = l.get ⟨i + 1, hi⟩ := by
    rw [List.getD_eq_getElem l someDate hi]
    simp
  rw [hgd1, hgd2]
  have hspan : ¬ toTicks (l.get ⟨i + 1, hi⟩) - toTicks (l.get ⟨i, hii⟩) ≤ 0 := by
    have h1 : toTicks (l.get ⟨i, hii⟩) < toTicks t := hl
    have h2 : toTicks t < toTicks (l.get ⟨i + 1, hi⟩) := hr
    intro hc
    linarith
  rw [if_neg hspan]
  ring

/-- C4: the resolver inside the covered range.  An empty series gives
0.0; a single-point series gives that point's value regardless of the
query; an exact key returns the stored value; a query strictly between
two adjacent sorted keys returns `left + frac·(right − left)` with
`frac` the elapsed-time fraction; and a zero-duration bracket returns
the left value. -/
theorem c4_resolver_linear :
    (∀ t, get_series_value [] t = 0) ∧
    (∀ d (v : ℚ) t, get_series_value [(d, v)] t = v) ∧
    (∀ (s : Series) t (v : ℚ), (keys s).Nodup → (t, v) ∈ s → get_series_value s t = v) ∧
    (∀ (s : Series) (t : Date) (i : Nat) (hi : i + 1 < (get_sorted_dates s).length),
      dlt ((get_sorted_dates s).get ⟨i, by omega⟩) t →
      dlt t ((get_sorted_dates s).get ⟨i + 1, hi⟩) →
      get_series_value s t =
        dictLookup s ((get_sorted_dates s).get ⟨i, by omega⟩) +
          (toTicks t - toTicks ((get_sorted_dates s).get ⟨i, by omega⟩)) /
            (toTicks ((get_sorted_dates s).get ⟨i + 1, hi⟩) -
              toTicks ((get_sorted_dates s).get ⟨i, by omega⟩)) *
          (dictLookup s ((get_sorted_dates s).get ⟨i + 1, hi⟩) -
            dictLookup s ((get_sorted_dates s).get ⟨i, by omega⟩))) ∧
    (∀ (s : Series) (l : List Date) (t : Date),
      ¬ bisect_left l t = 0 → ¬ l.length ≤ bisect_left l t →
      toTicks (l.getD (bisect_left l t) someDate) -
        toTicks (l.getD (bisect_left l t - 1) someDate) ≤ 0 →
      interpolate_linear s l t = dictLookup s (l.getD (bisect_left l t - 1) someDate)) := by
  refine ⟨?_, ?_, ?_, ?_, ?_⟩
  · intro t
    rfl
  · intro d v t
    unfold get_series_value
    by_cases h : d = t
    · subst h
      rw [if_neg (by simp), if_pos (by simp [keys])]
      unfold dictLookup
      simp [List.find?]
    · have hc : (keys [(d, v)]).contains t = false := by
        refine Bool.eq_false_iff.mpr (fun hcon => ?_)
        have hmem := (contains_keys_iff _ _).mp hcon
        simp [keys] at hmem
        exact h hmem.symm
      rw [if_neg (by simp), hc, if_neg Bool.false_ne_true]
      have hsd : get_sorted_dates [(d, v)] = [d] := rfl
      rw [hsd]
      dsimp only
      rw [if_pos (show ([d].length = 1) from rfl)]
      unfold dictLookup
      simp [List.find?]
  · intro s t v hnd hmem
    have hne : s ≠ [] := List.ne_nil_of_mem hmem
    unfold get_series_value
    rw [if_neg (by simp [List.isEmpty_iff, hne])]
    rw [if_pos (show (keys s).contains t = true from
      (contains_keys_iff (keys s) t).mpr (List.mem_map.mpr ⟨(t, v), hmem, rfl⟩))]
    exact dictLookup_of_mem s t v hnd hmem
  · intro s t i hi hl hr
    have hii : i < (get_sorted_dates s).length := by omega
    have hnotmem : ¬ t ∈ keys s := by
      intro hmem
      obtain ⟨⟨j, hj⟩, hdj⟩ := List.mem_iff_get.mp ((mem_sorted_dates s t).mpr hmem)
      by_cases hji : j ≤ i
      · have hle := sorted_rel_of_le _ (sorted_dates s) j i hji hii
        have hlt : toTicks t < toTicks t :=
          lt_of_le_of_lt (le_of_eq_of_le (congrArg toTicks hdj.symm) hle) hl
        exact lt_irrefl _ hlt
      · have hle := sorted_rel_of_le _ (sorted_dates s) (i + 1) j (by omega) hj
        have hlt : toTicks t < toTicks t :=
          lt_of_lt_of_le hr (le_of_le_of_eq hle (congrArg toTicks hdj))
        exact lt_irrefl _ hlt
    have hne : s ≠ [] := by
      intro hc
      subst hc
      simp [get_sorted_dates, keys] at hi
    unfold get_series_value
    rw [if_neg (by simp [List.isEmpty_iff, hne])]
    rw [Bool.eq_false_iff.mpr (fun hcon => hnotmem ((contains_keys_iff _ _).mp hcon)),
      if_neg Bool.false_ne_true]
    dsimp only
    rw [if_neg (by omega)]
    have hstart : dle ((get_sorted_dates s).getD 0 someDate) t := by
      rw [List.getD_eq_getElem _ _ (by omega : 0 < (get_sorted_dates s).length)]
      have hle := sorted_rel_of_le _ (sorted_dates s) 0 i (by omega) hii
      exact le_of_lt (lt_of_le_of_lt (by simpa using hle) hl)
    have hstop : dle t ((get_sorted_dates s).getD ((get_sorted_dates s).length - 1) someDate) := by
      rw [List.getD_eq_getElem _ _
        (by omega : (get_sorted_dates s).length - 1 < (get_sorted_dates s).length)]
      have hle := sorted_rel_of_le _ (sorted_dates s) (i + 1)
        ((get_sorted_dates s).length - 1) (by omega)
        (by omega : (get_sorted_dates s).length - 1 < (get_sorted_dates s).length)
      exact le_of_lt (lt_of_lt_of_le hr (by simpa using hle))
    rw [if_pos ⟨hstart, hstop⟩]
    exact interpolate_linear_bracket s (get_sorted_dates s) t (sorted_dates s) i hi hl hr
  · intro s l t h0 hlen hspan
    unfold interpolate_linear
    rw [if_neg h0, if_neg hlen, if_pos hspan]

/-- C4 witness: the strict-between clause applied to a concrete
two-point series queried at its midpoint. -/
theorem c4_resolver_linear_witness :
    get_series_value [(jan2020, 4), (⟨2020, 1, 3, 0⟩, 8)] ⟨2020, 1, 2, 0⟩ = 6 := by
  have h := c4_resolver_linear.2.2.2.1 [(jan2020, 4), (⟨2020, 1, 3, 0⟩, 8)] ⟨2020, 1, 2, 0⟩ 0
    (by with_unfolding_all decide) (by with_unfolding_all decide) (by with_unfolding_all decide)
  rw [h]
  with_unfolding_all decide

/-!
## C5 — annual periodicity of the cyclic resolver
-/

theorem leapBit_le (y : Nat) : leapBit y ≤ 1 := by
  unfold leapBit
  split
  · exact le_refl 1
  · exact Nat.zero_le 1

theorem daysInMonth_indep (y y' m : Nat) (hm : ¬ m = 2) :
    daysInMonth y m = daysInMonth y' m := by
  unfold daysInMonth
  rcases m with _ | _ | _ | n
  · rfl
  · rfl
  · exact absurd rfl hm
  · rcases n with _ | _ | _ | _ | _ | _ | _ | _ | _ | _ | n <;> rfl

/-- Replacing the year of a valid date (other than Feb 29) keeps it
valid. -/
theorem valid_replace_year (d : Date) (hv : ValidDate d)
    (h29 : ¬ (d.month = 2 ∧ d.day = 29)) (y : Nat) (hy : 1 ≤ y) :
    ValidDate { d with year := y } := by
  obtain ⟨hy0, hm1, hm2, hd1, hd2, hs1, hs2⟩ := hv
  refine ⟨hy, hm1, hm2, hd1, ?_, hs1, hs2⟩
  by_cases hm : d.month = 2
  · have hlb := leapBit_le d.year
    have hlb' := leapBit_le y
    have hd2' : d.day ≤ 28 + leapBit d.year := by
      rw [hm] at hd2
      exact hd2
    have hne : ¬ d.day = 29 := fun hc => h29 ⟨hm, hc⟩
    have : d.day ≤ 28 := by omega
    show d.day ≤ daysInMonth y d.month
    rw [hm]
    show d.day ≤ 28 + leapBit y
    omega
  · show d.day ≤ daysInMonth y d.month
    rw [daysInMonth_indep y d.year d.month hm]
    exact hd2

/-- Day-of-year bounds for a valid date: between 1 and the year length. -/
theorem dayOfYear_bounds (d : Date) (hv : ValidDate d) :
    1 ≤ dayOfYear d.year d.month d.day ∧
      dayOfYear d.year d.month d.day ≤ 365 + leapBit d.year := by
  obtain ⟨hy0, hm1, hm2, hd1, hd2, hs1, hs2⟩ := hv
  have hlb := leapBit_le d.year
  unfold dayOfYear cumDays
  unfold daysInMonth at hd2
  interval_cases h : d.month <;> simp_all <;> omega

set_option maxHeartbeats 2000000 in
theorem ordBase_succ (y : Nat) (hy : 1 ≤ y) :
    ordBase (y + 1) = ordBase y + 365 + leapBit y := by
  unfold ordBase leapBit
  have hyy : (y + 1) - 1 = y := by omega
  rw [hyy]
  by_cases hc : y % 4 = 0 ∧ (¬ y % 100 = 0 ∨ y % 400 = 0)
  · rw [if_pos hc]
    omega
  · rw [if_neg hc]
    omega

theorem ordBase_mono (a b : Nat) (ha : 1 ≤ a) (hab : a ≤ b) :
    ordBase a ≤ ordBase b := by
  induction b, hab using Nat.le_induction with
  | base => exact le_refl _
  | succ n hn ih =>
    have h := ordBase_succ n (le_trans ha hn)
    omega

/-- A valid date in an earlier year is strictly earlier on the tick
timeline. -/
theorem toTicks_lt_of_year_lt (a b : Date) (hva : ValidDate a) (hvb : ValidDate b)
    (hy : a.year < b.year) : toTicks a < toTicks b := by
  have hda := dayOfYear_bounds a hva
  have hdb := dayOfYear_bounds b hvb
  have hya : 1 ≤ a.year := hva.1
  have hyb : 1 ≤ b.year := hvb.1
  have hord : toOrdinal a.year a.month a.day < toOrdinal b.year b.month b.day := by
    unfold toOrdinal
    have h1 : ordBase a.year + dayOfYear a.year a.month a.day ≤
        ordBase a.year + 365 + leapBit a.year := by omega
    have h2 : ordBase a.year + 365 + leapBit a.year = ordBase (a.year + 1) :=
      (ordBase_succ a.year hya).symm
    have h3 : ordBase (a.year + 1) ≤ ordBase b.year :=
      ordBase_mono (a.year + 1) b.year (by omega) (by omega)
    omega
  unfold toTicks
  have hsa : a.secs < 86400 := hva.2.2.2.2.2.2
  have hsb : 0 ≤ b.secs := hvb.2.2.2.2.2.1
  have hcast : (toOrdinal a.year a.month a.day : ℚ) + 1 ≤
      (toOrdinal b.year b.month b.day : ℚ) := by
    have : toOrdinal a.year a.month a.day + 1 ≤ toOrdinal b.year b.month b.day := hord
    exact_mod_cast this
  nlinarith [hcast]

theorem shift_to_year_eq (t : Date) (y : Nat) : shift_to_year t y = replaceYear t y := by
  unfold shift_to_year add_years
  congr 1
  omega

theorem sorted_dates_isEmpty_false (s : Series) (d : Date) (hd : d ∈ get_sorted_dates s) :
    (get_sorted_dates s).isEmpty = false := by
  cases h : get_sorted_dates s with
  | nil => rw [h] at hd; cases hd
  | cons a l => rfl

/-- When the (shifted) query is itself a stored key, the cyclic
interpolator returns the stored value immediately. -/
theorem interpolate_cyclic_mem (s : Series) (l : List Date) (d : Date) (v : ℚ)
    (hnd : (keys s).Nodup) (hmem : (d, v) ∈ s) :
    interpolate_cyclic s l d = v := by
  unfold interpolate_cyclic
  dsimp only
  rw [if_pos (show (keys s).contains d = true from
    (contains_keys_iff (keys s) d).mpr (List.mem_map.mpr ⟨(d, v), hmem, rfl⟩))]
  exact dictLookup_of_mem s d v hnd hmem

/-- C5: for a series whose (valid) keys all lie in calendar year `Y`,
resolving one full year after or one full year before a stored date `d`
(same month/day, `d` not Feb 29) returns exactly the stored value: the
resolver shifts the query back into year `Y` and hits the key. -/
theorem c5_cyclic_periodicity (s : Series) (Y : Nat) (d : Date) (v : ℚ)
    (hmem : (d, v) ∈ s) (hnd : (keys s).Nodup)
    (hval : ∀ k ∈ keys s, ValidDate k) (hyr : ∀ k ∈ keys s, k.year = Y)
    (h29 : ¬ (d.month = 2 ∧ d.day = 29)) (hY : 2 ≤ Y) :
    get_series_value s { d with year := Y + 1 } = v ∧
    get_series_value s { d with year := Y - 1 } = v := by
  have hdk : d ∈ keys s := List.mem_map.mpr ⟨(d, v), hmem, rfl⟩
  have hdY : d.year = Y := hyr d hdk
  have hdv : ValidDate d := hval d hdk
  have hne : s ≠ [] := List.ne_nil_of_mem hmem
  have hmemdts : d ∈ get_sorted_dates s := (mem_sorted_dates s d).mpr hdk
  -- facts used by both directions when the sorted list has ≥ 2 entries
  have hlen_pos : 0 < (get_sorted_dates s).length := List.length_pos.mpr
    (List.ne_nil_of_mem hmemdts)
  have hstart_mem : (get_sorted_dates s).getD 0 someDate ∈ keys s := by
    rw [List.getD_eq_getElem _ _ hlen_pos]
    exact (mem_sorted_dates s _).mp (List.getElem_mem hlen_pos)
  have hstartY : ((get_sorted_dates s).getD 0 someDate).year = Y := hyr _ hstart_mem
  have hstartv : ValidDate ((get_sorted_dates s).getD 0 someDate) := hval _ hstart_mem
  have hstop_lt : (get_sorted_dates s).length - 1 < (get_sorted_dates s).length := by omega
  have hstop_mem : (get_sorted_dates s).getD ((get_sorted_dates s).length - 1) someDate ∈ keys s := by
    rw [List.getD_eq_getElem _ _ hstop_lt]
    exact (mem_sorted_dates s _).mp (List.getElem_mem hstop_lt)
  have hstopY :
      ((get_sorted_dates s).getD ((get_sorted_dates s).length - 1) someDate).year = Y :=
    hyr _ hstop_mem
  have hstopv : ValidDate ((get_sorted_dates s).getD ((get_sorted_dates s).length - 1) someDate) :=
    hval _ hstop_mem
  have hfilt : (get_sorted_dates s).filter (fun x => decide (x.year = Y)) = get_sorted_dates s :=
    List.filter_eq_self.mpr (fun x hx => decide_eq_true (hyr x ((mem_sorted_dates s x).mp hx)))
  have hsingle : (get_sorted_dates s).length = 1 →
      ∀ q : Date, ¬ q ∈ keys s → get_series_value s q = v := by
    intro hn1 q hqnot
    obtain ⟨a, ha⟩ := List.length_eq_one.mp hn1
    have hkeys : keys s = [a] := List.perm_singleton.mp ((ha ▸ perm_sorted_dates s).symm)
    have had : a = d := by
      have hmem' : d ∈ ([a] : List Date) := hkeys ▸ hdk
      have := List.mem_singleton.mp hmem'
      exact this.symm
    unfold get_series_value
    rw [if_neg (by simp [List.isEmpty_iff, hne])]
    rw [Bool.eq_false_iff.mpr (fun hcon => hqnot ((contains_keys_iff _ _).mp hcon)),
      if_neg Bool.false_ne_true]
    dsimp only
    rw [if_pos hn1, ha]
    have hgd : ([a].getD 0 someDate) = a := rfl
    rw [hgd, had]
    exact dictLookup_of_mem s d v hnd hmem
  constructor
  · -- one year after d
    have hqv : ValidDate ({ d with year := Y + 1 }) :=
      valid_replace_year d hdv h29 (Y + 1) (by omega)
    have hqnot : ¬ ({ d with year := Y + 1 } : Date) ∈ keys s := by
      intro hc
      have := hyr _ hc
      simp at this
    by_cases hn1 : (get_sorted_dates s).length = 1
    · exact hsingle hn1 _ hqnot
    · unfold get_series_value
      rw [if_neg (by simp [List.isEmpty_iff, hne])]
      rw [Bool.eq_false_iff.mpr (fun hcon => hqnot ((contains_keys_iff _ _).mp hcon)),
        if_neg Bool.false_ne_true]
      dsimp only
      rw [if_neg hn1]
      have hstop_lt_q : toTicks ((get_sorted_dates s).getD ((get_sorted_dates s).length - 1)
          someDate) < toTicks ({ d with year := Y + 1 }) :=
        toTicks_lt_of_year_lt _ _ hstopv hqv (by dsimp only; rw [hstopY]; omega)
      have hstart_lt_q : toTicks ((get_sorted_dates s).getD 0 someDate) <
          toTicks ({ d with year := Y + 1 }) :=
        toTicks_lt_of_year_lt _ _ hstartv hqv (by dsimp only; rw [hstartY]; omega)
      rw [if_neg (show ¬ (dle ((get_sorted_dates s).getD 0 someDate)
            ({ d with year := Y + 1 }) ∧
          dle ({ d with year := Y + 1 })
            ((get_sorted_dates s).getD ((get_sorted_dates s).length - 1) someDate)) from
        fun hc => absurd hc.2 (not_le.mpr hstop_lt_q))]
      rw [if_neg (show ¬ dlt ({ d with year := Y + 1 })
            ((get_sorted_dates s).getD 0 someDate) from
        not_lt.mpr (le_of_lt hstart_lt_q))]
      rw [hstopY]
      rw [shift_to_year_eq]
      have hrep : replaceYear ({ d with year := Y + 1 }) Y = d := by
        unfold replaceYear
        rw [if_neg (fun hc => h29 ⟨hc.1, hc.2.1⟩)]
        cases d
        simp_all
      rw [hrep, hfilt]
      rw [sorted_dates_isEmpty_false s d hmemdts, if_neg Bool.false_ne_true]
      rw [if_neg hn1]
      exact interpolate_cyclic_mem s _ d v hnd hmem
  · -- one year before d
    have hqv : ValidDate ({ d with year := Y - 1 }) :=
      valid_replace_year d hdv h29 (Y - 1) (by omega)
    have hqnot : ¬ ({ d with year := Y - 1 } : Date) ∈ keys s := by
      intro hc
      have := hyr _ hc
      simp at this
      omega
    by_cases hn1 : (get_sorted_dates s).length = 1
    · exact hsingle hn1 _ hqnot
    · unfold get_series_value
      rw [if_neg (by simp [List.isEmpty_iff, hne])]
      rw [Bool.eq_false_iff.mpr (fun hcon => hqnot ((contains_keys_iff _ _).mp hcon)),
        if_neg Bool.false_ne_true]
      dsimp only
      rw [if_neg hn1]
      have hq_lt_start : toTicks ({ d with year := Y - 1 }) <
          toTicks ((get_sorted_dates s).getD 0 someDate) :=
        toTicks_lt_of_year_lt _ _ hqv hstartv (by dsimp only; rw [hstartY]; omega)
      rw [if_neg (show ¬ (dle ((get_sorted_dates s).getD 0 someDate)
            ({ d with year := Y - 1 }) ∧
          dle ({ d with year := Y - 1 })
            ((get_sorted_dates s).getD ((get_sorted_dates s).length - 1) someDate)) from
        fun hc => absurd hc.1 (not_le.mpr hq_lt_start))]
      rw [if_pos (show dlt ({ d with year := Y - 1 })
            ((get_sorted_dates s).getD 0 someDate) from hq_lt_start)]
      rw [hstartY]
      rw [shift_to_year_eq]
      have hrep : replaceYear ({ d with year := Y - 1 }) Y = d := by
        unfold replaceYear
        rw [if_neg (fun hc => h29 ⟨hc.1, hc.2.1⟩)]
        cases d
        simp_all
      rw [hrep, hfilt]
      rw [sorted_dates_isEmpty_false s d hmemdts, if_neg Bool.false_ne_true]
      rw [if_neg hn1]
      exact interpolate_cyclic_mem s _ d v hnd hmem

/-- C5 witness: the periodicity statement applied to a concrete
two-point series inside the year 2020. -/
theorem c5_cyclic_periodicity_witness :
    get_series_value [(⟨2020, 3, 1, 0⟩, 4), (⟨2020, 5, 1, 0⟩, 8)] ⟨2021, 3, 1, 0⟩ = 4 ∧
    get_series_value [(⟨2020, 3, 1, 0⟩, 4), (⟨2020, 5, 1, 0⟩, 8)] ⟨2019, 3, 1, 0⟩ = 4 :=
  c5_cyclic_periodicity [(⟨2020, 3, 1, 0⟩, 4), (⟨2020, 5, 1, 0⟩, 8)] 2020 ⟨2020, 3, 1, 0⟩ 4
    (by with_unfolding_all decide) (by with_unfolding_all decide)
    (by with_unfolding_all decide) (by with_unfolding_all decide)
    (by with_unfolding_all decide) (by with_unfolding_all decide)

end Aquatox
